import Mathlib

/-!
Formal model of the odr daemon (an on-demand DHCPv4 relay/requester for a VPN
concentrator).  The definitions below are shallow embeddings of the Python
sources under src/odr/: byte strings become lists of naturals, the pydhcplib
DhcpPacket becomes a record of the options the daemon reads (GetOption of a
missing option reads as the empty byte string, as in the bytes-based pydhcplib
fork the code is written against), Python dictionaries become association
lists, and code that can raise becomes Except- or flag-valued.  The
random.randint / random.uniform jitters are passed in as explicit parameters.
Loops that consume a variable number of bytes per iteration are written with
an explicit fuel argument (initialized to the input length, which strictly
dominates the iteration count) so that all definitions are structurally
recursive and evaluate inside the kernel.
-/

set_option maxRecDepth 8192

namespace Odr

/-- Big-endian integer value of a byte string, as computed by Python's
int.from_bytes(b, "big") and by the packed-bytes constructors of the
ipaddress module. -/
def bytesToNat : List Nat → Nat
  | [] => 0
  | b :: bs => b * 256 ^ bs.length + bytesToNat bs

/-- Dotted-quad rendering of a 32-bit address value, mirroring
str(ipaddress.IPv4Address(v)). -/
def ipv4Str (a : Nat) : String :=
  Nat.repr (a / 16777216 % 256) ++ "." ++ Nat.repr (a / 65536 % 256) ++ "."
    ++ Nat.repr (a / 256 % 256) ++ "." ++ Nat.repr (a % 256)

/-- A static route triple (network, netmask, gateway), each a dotted quad,
exactly as produced by parse_classless_static_routes. -/
abbrev Route := String × String × String

/-- Outcome of running parse_classless_static_routes: the Python function
returns a list of routes, returns None (the malformed signal), or lets a
ValueError raised by the strict IPv4Network constructor propagate. -/
inductive ParseOutcome where
  | routes (rs : List Route)
  | malformed
  | raised
deriving DecidableEq, Repr

/-- Number of significant octets of a mask width, as computed by the source:
(mask_width - 1) // 8 + 1 with Python floor division, which yields 0 at
width 0 (since (-1) // 8 = -1). -/
def significantOctets (w : Nat) : Nat :=
  if w = 0 then 0 else (w - 1) / 8 + 1

/-- The 32-bit netmask value of a mask width, as rendered by
str(IPv4Network(...).netmask). -/
def netmaskOfWidth (w : Nat) : Nat := 2 ^ 32 - 2 ^ (32 - w)

/-- Loop of parse_classless_static_routes (dhcprequestor.py lines 618-650).
One iteration runs only while at least 5 bytes remain; it pops the mask
width, rejects more than four significant octets (i.e. width > 32), reads
the significant octets zero-padded to four, builds the strict IPv4Network -
which raises ValueError when any network bit below the mask width is set -
then reads the 4-byte gateway, signalling malformed when it is short.
Left-over trailing bytes of length 1-4 are malformed.  The fuel argument
only makes the recursion structural; every iteration consumes at least five
bytes, so fuel = length of the input never runs out. -/
def parseCSRgo : Nat → List Nat → ParseOutcome
  | _, [] => ParseOutcome.routes []
  | 0, _ :: _ => ParseOutcome.malformed
  | fuel + 1, w :: rest =>
    if 4 ≤ rest.length then
      let so := significantOctets w
      if 4 < so then ParseOutcome.malformed
      else
        let netBytes := rest.take so ++ List.replicate (4 - so) 0
        let addr := bytesToNat netBytes
        if addr % 2 ^ (32 - w) ≠ 0 then ParseOutcome.raised
        else
          let rest2 := rest.drop so
          let gw := rest2.take 4
          if gw.length ≠ 4 then ParseOutcome.malformed
          else
            match parseCSRgo fuel (rest2.drop 4) with
            | ParseOutcome.routes rs =>
                ParseOutcome.routes
                  ((ipv4Str addr, ipv4Str (netmaskOfWidth w),
                    ipv4Str (bytesToNat gw)) :: rs)
            | o => o
    else ParseOutcome.malformed

/-- parse_classless_static_routes (dhcprequestor.py lines 610-650), on the
list of option-121 byte values. -/
def parse_classless_static_routes (data : List Nat) : ParseOutcome :=
  parseCSRgo data.length data

/-- Number of significant octets of an option-121 entry according to the
claim: the ceiling of width/8 (0 when the width is 0). -/
def specOctetCount (w : Nat) : Nat := (w + 7) / 8

/-- Decoder as described by the (amended) claim C2, written from its words:
entries are scanned left to right while at least five bytes remain; a mask
width above 32 is malformed; an entry whose zero-padded network value has a
set bit below the mask width raises; after the ceil(width/8) network octets a
short gateway is malformed; trailing bytes after the last complete entry are
malformed; otherwise the (network, netmask, gateway) dotted-quad triples are
produced in input order. -/
def specDecodeCSRgo : Nat → List Nat → ParseOutcome
  | _, [] => ParseOutcome.routes []
  | 0, _ :: _ => ParseOutcome.malformed
  | fuel + 1, w :: rest =>
    if 4 ≤ rest.length then
      if 32 < w then ParseOutcome.malformed
      else
        let network := bytesToNat (rest.take (specOctetCount w) ++
          List.replicate (4 - specOctetCount w) 0)
        if network % 2 ^ (32 - w) ≠ 0 then ParseOutcome.raised
        else
          let gw := (rest.drop (specOctetCount w)).take 4
          if gw.length ≠ 4 then ParseOutcome.malformed
          else
            match specDecodeCSRgo fuel ((rest.drop (specOctetCount w)).drop 4) with
            | ParseOutcome.routes rs =>
                ParseOutcome.routes
                  ((ipv4Str network, ipv4Str (netmaskOfWidth w),
                    ipv4Str (bytesToNat gw)) :: rs)
            | o => o
    else ParseOutcome.malformed

/-- The claim-level decoder applied to a whole option value. -/
def specDecodeCSR (data : List Nat) : ParseOutcome :=
  specDecodeCSRgo data.length data

/-- One spec-level option-121 entry: the mask width, exactly the significant
octets of the network, and a 4-byte gateway. -/
structure CSREntry where
  width : Nat
  net : List Nat
  gw : List Nat
deriving DecidableEq, Repr

/-- RFC 3442 wire encoding of a list of entries. -/
def encodeCSR : List CSREntry → List Nat
  | [] => []
  | e :: es => e.width :: (e.net ++ e.gw ++ encodeCSR es)

/-- A well-formed entry: width at most 32, exactly ceil(width/8) network
octets, a 4-byte gateway, and no network bit set below the mask width (the
condition under which the strict IPv4Network constructor accepts it). -/
def wfEntry (e : CSREntry) : Prop :=
  e.width ≤ 32 ∧ e.net.length = significantOctets e.width ∧ e.gw.length = 4 ∧
    bytesToNat (e.net ++ List.replicate (4 - significantOctets e.width) 0) %
      2 ^ (32 - e.width) = 0

instance (e : CSREntry) : Decidable (wfEntry e) := by
  unfold wfEntry
  infer_instance

/-- The decoded triple of a well-formed entry: network zero-padded to four
octets, netmask of the width, gateway. -/
def tripleOfEntry (e : CSREntry) : Route :=
  (ipv4Str (bytesToNat (e.net ++ List.replicate (4 - significantOctets e.width) 0)),
   ipv4Str (netmaskOfWidth e.width), ipv4Str (bytesToNat e.gw))

/-- The four packed bytes of a 32-bit value, mirroring IPv4Address(v).packed. -/
def natToBytes4 (a : Nat) : List Nat :=
  [a / 16777216 % 256, a / 65536 % 256, a / 256 % 256, a % 256]

/-- Reading a pydhcplib option: GetOption of a missing option reads as the
empty byte string. -/
def getOpt (o : Option (List Nat)) : List Nat :=
  o.getD []

/-- Python bytes.decode("ascii"): succeeds exactly when every byte is below
128, raising UnicodeDecodeError otherwise. -/
def asciiDecode (bs : List Nat) : Option String :=
  if bs.all (fun b => b < 128) then
    some (String.mk (bs.map (fun b => Char.ofNat b)))
  else none

/-- IPv4Address(bs) on a byte string: accepts exactly the 4-byte strings
(whose bytes are below 256 by construction), raising otherwise; used to model
the narrowing in _retrieve_server_ip. -/
def ipv4FromBytes (bs : List Nat) : Option Nat :=
  if bs.length = 4 ∧ bs.all (fun b => b < 256) then some (bytesToNat bs)
  else none

/-- An inbound DhcpPacket as the daemon reads it: the source address attached
by handle_socket, the IsDhcpPacket flag, and the option bytes the daemon
consumes.  xid and yiaddr are fixed BOOTP header fields, present in every
decoded packet; the remaining options are optional (IsOption tests their
presence). -/
structure DhcpPacket where
  source_address : Option (Nat × Nat)
  is_dhcp_packet : Bool
  dhcp_message_type : Option (List Nat)
  xid : List Nat
  yiaddr : List Nat
  subnet_mask : Option (List Nat)
  router : Option (List Nat)
  domain_name : Option (List Nat)
  domain_name_server : Option (List Nat)
  classless_static_route : Option (List Nat)
  ip_address_lease_time : Option (List Nat)
  renewal_time_value : Option (List Nat)
  rebinding_time_value : Option (List Nat)
  server_identifier : Option (List Nat)
deriving DecidableEq, Repr

/-- An outbound packet as built by _generate_base_packet and the per-state
generators (op BOOTREQUEST, htype 1 and hops 1 are fixed and omitted).
dhcp_message_type is 1 for DHCP_DISCOVER and 3 for DHCP_REQUEST. -/
structure OutPacket where
  msg_type : Nat
  xid : Nat
  giaddr : Nat
  client_identifier : List Nat
  relay_agent : Option (List Nat)
  parameter_request_list : List String
  ip_address_lease_time : Option Nat
  server_identifier : Option (List Nat)
  request_ip_address : Option (List Nat)
deriving DecidableEq, Repr

/-- The transaction states AR_DISCOVER = 1 and AR_REQUEST = 2. -/
inductive ArState where
  | discover
  | request
deriving DecidableEq, Repr

/-- The mutable state of a DhcpAddressRequest (dhcprequestor.py lines
101-129): configuration fields, the current retry/timeout counters, the last
packet sent and whether a timeout object is pending. -/
structure Transaction where
  xid : Nat
  state : Option ArState
  local_ip : Nat
  client_identifier : List Nat
  server_ips : List Nat
  target_addr : Option Nat
  max_retries : Nat
  initial_timeout : Nat
  lease_time : Option Nat
  start_time : Nat
  timeout : Nat
  timeout_armed : Bool
  last_packet : Option OutPacket
  packet_retries : Nat
deriving DecidableEq, Repr

/-- The result dictionary passed to the success handler by handle_dhcp_ack.
domain, dns and the three timeouts are always assigned; the address fields
and static_routes are assigned conditionally. -/
structure AckResult where
  domain : String
  ip_address : Option String
  subnet_mask : Option String
  gateway : Option String
  dns : List String
  static_routes : Option (List Route)
  lease_timeout : Int
  renewal_timeout : Int
  rebinding_timeout : Int
deriving DecidableEq, Repr

/-- Externally visible effects of one handler invocation: packets sent (with
destination IPs), base timeout values armed (before the uniform +-1 jitter),
a success-handler call and a failure-handler call. -/
structure Effects where
  sends : List (OutPacket × Nat)
  armed : List Nat
  success : Option AckResult
  failure : Bool
deriving DecidableEq, Repr

/-- No externally visible effect. -/
def noEffects : Effects :=
  { sends := [], armed := [], success := none, failure := false }

/-- The parameter request list of _add_option_list, in source order
(classless_static_route deliberately precedes router). -/
def paramRequestList : List String :=
  ["subnet_mask", "classless_static_route", "router", "domain_name_server",
   "domain_name", "renewal_time_value", "rebinding_time_value"]

/-- _generate_base_packet plus _add_option_list and _set_lease_time, shared
by all generators: giaddr is the local IP, the relay-agent option carries the
RFC 3527 link-selection sub-option (tag 5, length 4) when target_addr is
set. -/
def generateBasePacket (tx : Transaction) (msgType : Nat) : OutPacket :=
  { msg_type := msgType
    xid := tx.xid
    giaddr := tx.local_ip
    client_identifier := tx.client_identifier
    relay_agent := tx.target_addr.map (fun a => [5, 4] ++ natToBytes4 a)
    parameter_request_list := paramRequestList
    ip_address_lease_time := tx.lease_time
    server_identifier := none
    request_ip_address := none }

/-- DhcpAddressInitialRequest._generate_discover. -/
def generateDiscover (tx : Transaction) : OutPacket :=
  generateBasePacket tx 1

/-- DhcpAddressInitialRequest._generate_request: the base REQUEST packet with
server_identifier copied from the offer (SetOption stores whatever bytes the
offer carried, the empty string if it carried none) and request_ip_address
copied from the offer's yiaddr. -/
def generateRequestInitial (tx : Transaction) (offer : DhcpPacket) : OutPacket :=
  { generateBasePacket tx 3 with
      server_identifier := some (getOpt offer.server_identifier)
      request_ip_address := some offer.yiaddr }

/-- DhcpAddressRefreshRequest._generate_refresh_request: the base REQUEST
packet with request_ip_address set to the currently leased client IP. -/
def generateRefreshRequest (tx : Transaction) (clientIp : Nat) : OutPacket :=
  { generateBasePacket tx 3 with request_ip_address := some (natToBytes4 clientIp) }

/-- _send_to_server: arm a timeout at the current timeout value and send the
packet once to every server IP. -/
def sendToServer (tx : Transaction) (p : OutPacket) : Transaction × Effects :=
  ({ tx with timeout_armed := true },
   { sends := tx.server_ips.map (fun ip => (p, ip))
     armed := [tx.timeout]
     success := none
     failure := false })

/-- _send_packet: remember the packet, reset the retry counter and the
timeout to the initial timeout, and send. -/
def sendPacket (tx : Transaction) (p : OutPacket) : Transaction × Effects :=
  sendToServer
    { tx with last_packet := some p, packet_retries := 0,
              timeout := tx.initial_timeout } p

/-- _resend_packet: bump the retry counter, double the timeout, and resend
the last packet (the caller guarantees one exists). -/
def resendPacket (tx : Transaction) (p : OutPacket) : Transaction × Effects :=
  sendToServer
    { tx with packet_retries := tx.packet_retries + 1,
              timeout := tx.timeout * 2 } p

/-- The xid-to-transaction dictionary of a DhcpAddressRequestor, as an
association list with (by dict construction) unique keys. -/
abbrev ReqMap := List (Nat × Transaction)

/-- Dictionary lookup self._requests[xid]. -/
def lookupXid (m : ReqMap) (x : Nat) : Option Transaction :=
  (m.find? (fun e => e.1 = x)).map (fun e => e.2)

/-- Dictionary deletion del self._requests[xid]. -/
def eraseXid (m : ReqMap) (x : Nat) : ReqMap :=
  m.filter (fun e => e.1 ≠ x)

/-- Replacing the transaction stored under a key (Python mutates the object
the dictionary already references). -/
def updateXid (m : ReqMap) (x : Nat) (t : Transaction) : ReqMap :=
  m.map (fun e => if e.1 = x then (x, t) else e)

/-- _valid_source_address: a falsy source, a source port other than 67, or a
source IP outside the transaction's current server list is rejected. -/
def validSourceAddress (tx : Transaction) (p : DhcpPacket) : Bool :=
  match p.source_address with
  | none => false
  | some (ip, port) =>
    if port ≠ 67 then false
    else if ¬ (ip ∈ tx.server_ips) then false
    else true

/-- _retrieve_server_ip: with more than one candidate server, narrow the
server list to the packet's server_identifier; when IPv4Address raises on the
option bytes the exception is caught and the list is kept. -/
def retrieveServerIp (tx : Transaction) (p : OutPacket) : Transaction :=
  if 1 < tx.server_ips.length then
    match ipv4FromBytes (getOpt p.server_identifier) with
    | some ip => { tx with server_ips := [ip] }
    | none => tx
  else tx

/-- handle_dhcp_offer (dhcprequestor.py lines 248-266): only in AR_DISCOVER
and from a valid source; cancels the pending timer, generates the REQUEST,
narrows the server list from it, moves to AR_REQUEST and sends with fresh
retry counters. -/
def handleDhcpOffer (tx : Transaction) (p : DhcpPacket) : Transaction × Effects :=
  if tx.state ≠ some ArState.discover then (tx, noEffects)
  else if ¬ validSourceAddress tx p then (tx, noEffects)
  else
    let tx1 := { tx with timeout_armed := false }
    let req := generateRequestInitial tx1 p
    let tx2 := retrieveServerIp tx1 req
    sendPacket { tx2 with state := some ArState.request } req

/-- First half of dns extraction in handle_dhcp_ack: the 4-byte chunks of
domain_name_server rendered as dotted quads, left to right. -/
def dnsList : List Nat → List String
  | a :: b :: c :: d :: rest => ipv4Str (bytesToNat [a, b, c, d]) :: dnsList rest
  | _ => []

/-- The default-route test of handle_dhcp_ack line 321: network and netmask
both equal to the string 0.0.0.0. -/
def isDefaultRoute (r : Route) : Bool :=
  r.1 = "0.0.0.0" && r.2.1 = "0.0.0.0"

/-- The loop over parsed static routes in handle_dhcp_ack lines 319-324:
starting from a deleted gateway, a default route replaces the gateway, every
other route is appended to static_routes. -/
def routesFold (rs : List Route) : Option String × List Route :=
  rs.foldl
    (fun acc r =>
      if isDefaultRoute r then (some r.2.2, acc.2)
      else (acc.1, acc.2 ++ [r]))
    (none, [])

/-- The renewal delta of handle_dhcp_ack lines 330-335: the big-endian
renewal_time_value when present, otherwise int(lease_delta * 0.5) plus the
random.randint(-5, 5) jitter jr (the float product is exact for 32-bit lease
values, so int() of it is the floor). -/
def renewalDelta (p : DhcpPacket) (jr : Int) : Int :=
  match p.renewal_time_value with
  | some v => (bytesToNat v : Int)
  | none => ((bytesToNat (getOpt p.ip_address_lease_time) / 2 : Nat) : Int) + jr

/-- The rebinding delta of handle_dhcp_ack lines 337-342, with
int(lease_delta * 0.875) = 7 * lease_delta / 8 (exact in double precision
for 32-bit lease values) and jitter jb. -/
def rebindingDelta (p : DhcpPacket) (jb : Int) : Int :=
  match p.rebinding_time_value with
  | some v => (bytesToNat v : Int)
  | none =>
    ((7 * bytesToNat (getOpt p.ip_address_lease_time) / 8 : Nat) : Int) + jb

/-- The result-building part of handle_dhcp_ack (lines 286-345), which can
raise: decoding domain_name as ASCII fails on a byte at or above 128, and a
classless_static_route option whose strict network constructor rejects it
propagates ValueError.  Everything else follows the source line by line. -/
def buildAckResult (startTime : Nat) (jr jb : Int) (p : DhcpPacket) :
    Except Unit AckResult :=
  match asciiDecode (getOpt p.domain_name) with
  | none => Except.error ()
  | some domain =>
    let ip_address :=
      if p.yiaddr.length = 4 then some (ipv4Str (bytesToNat p.yiaddr)) else none
    let subnet_mask :=
      match p.subnet_mask with
      | some v => if v.length = 4 then some (ipv4Str (bytesToNat v)) else none
      | none => none
    let gateway0 :=
      match p.router with
      | some v => if v.length = 4 then some (ipv4Str (bytesToNat v)) else none
      | none => none
    let dns := dnsList (getOpt p.domain_name_server)
    let csr :=
      match p.classless_static_route with
      | none => Except.ok (gateway0, none)
      | some bs =>
        match parse_classless_static_routes bs with
        | ParseOutcome.raised => Except.error ()
        | ParseOutcome.malformed => Except.ok (gateway0, none)
        | ParseOutcome.routes rs =>
          let folded := routesFold rs
          Except.ok (folded.1, some folded.2)
    match csr with
    | Except.error e => Except.error e
    | Except.ok (gateway, static_routes) =>
      let leaseDelta := bytesToNat (getOpt p.ip_address_lease_time)
      Except.ok
        { domain := domain
          ip_address := ip_address
          subnet_mask := subnet_mask
          gateway := gateway
          dns := dns
          static_routes := static_routes
          lease_timeout := (startTime : Int) + (leaseDelta : Int)
          renewal_timeout := (startTime : Int) + renewalDelta p jr
          rebinding_timeout := (startTime : Int) + rebindingDelta p jb }

/-- handle_dhcp_ack (dhcprequestor.py lines 268-345): only in AR_REQUEST and
from a valid source; cancels the timer and removes itself from the requestor
before building the result, so a raise inside result building leaves the
transaction deleted without a success call.  Returns the updated transaction,
whether it deleted itself, its effects, and whether it raised. -/
def handleDhcpAck (tx : Transaction) (p : DhcpPacket) (jr jb : Int) :
    Transaction × Bool × Effects × Bool :=
  if tx.state ≠ some ArState.request then (tx, false, noEffects, false)
  else if ¬ validSourceAddress tx p then (tx, false, noEffects, false)
  else
    let tx1 := { tx with timeout_armed := false }
    match buildAckResult tx1.start_time jr jb p with
    | Except.ok r => (tx1, true, { noEffects with success := some r }, false)
    | Except.error _ => (tx1, true, noEffects, true)

/-- handle_dhcp_nack (dhcprequestor.py lines 347-365): only in AR_REQUEST and
from a valid source; cancels the timer, removes itself and calls the failure
handler. -/
def handleDhcpNack (tx : Transaction) (p : DhcpPacket) :
    Transaction × Bool × Effects :=
  if tx.state ≠ some ArState.request then (tx, false, noEffects)
  else if ¬ validSourceAddress tx p then (tx, false, noEffects)
  else ({ tx with timeout_armed := false }, true, { noEffects with failure := true })

/-- handle_timeout (dhcprequestor.py lines 367-382): with the retries
exhausted, remove the transaction from the requestor and call the failure
handler; otherwise resend the last packet when there is one. -/
def handleTimeout (tx : Transaction) (reqs : ReqMap) :
    Transaction × ReqMap × Effects :=
  if tx.max_retries ≤ tx.packet_retries then
    (tx, eraseXid reqs tx.xid, { noEffects with failure := true })
  else
    match tx.last_packet with
    | some p =>
      let r := resendPacket tx p
      (r.1, updateXid reqs tx.xid r.1, r.2)
    | none => (tx, reqs, noEffects)

/-- DhcpAddressInitialRequest.__init__ (dhcprequestor.py lines 394-407): the
transaction starts in AR_DISCOVER and sends the DISCOVER packet. -/
def initialRequestInit (xid local_ip : Nat) (client_identifier : List Nat)
    (server_ips : List Nat) (target_addr : Option Nat)
    (max_retries initial_timeout : Nat) (lease_time : Option Nat)
    (start_time : Nat) : Transaction × Effects :=
  let tx : Transaction :=
    { xid := xid, state := some ArState.discover, local_ip := local_ip,
      client_identifier := client_identifier, server_ips := server_ips,
      target_addr := target_addr, max_retries := max_retries,
      initial_timeout := initial_timeout, lease_time := lease_time,
      start_time := start_time, timeout := initial_timeout,
      timeout_armed := false, last_packet := none, packet_retries := 0 }
  sendPacket tx (generateDiscover tx)

/-- DhcpAddressRefreshRequest.__init__ (dhcprequestor.py lines 435-448): the
transaction starts directly in AR_REQUEST, keeps the configured server list
untouched, and sends the refresh REQUEST for the leased client IP. -/
def refreshRequestInit (xid local_ip : Nat) (client_identifier : List Nat)
    (server_ips : List Nat) (target_addr : Option Nat)
    (max_retries initial_timeout : Nat) (lease_time : Option Nat)
    (start_time : Nat) (clientIp : Nat) : Transaction × Effects :=
  let tx : Transaction :=
    { xid := xid, state := some ArState.request, local_ip := local_ip,
      client_identifier := client_identifier, server_ips := server_ips,
      target_addr := target_addr, max_retries := max_retries,
      initial_timeout := initial_timeout, lease_time := lease_time,
      start_time := start_time, timeout := initial_timeout,
      timeout_armed := false, last_packet := none, packet_retries := 0 }
  sendPacket tx (generateRefreshRequest tx clientIp)

/-- The four parameters the odrd command handlers read from a decoded
command-message JSON object; none models a missing key (KeyError). -/
structure CmdParams where
  full_username : Option String
  ret_file_idx : Option String
  config_file_idx : Option String
  daemon_name : Option String
deriving DecidableEq, Repr

/-- One message received on the command socket: bytes that are not valid
JSON, a JSON object without the cmd key, or a decoded command. -/
inductive CmdMsg where
  | undecodable
  | noCmdKey (params : CmdParams)
  | cmd (name : String) (params : CmdParams)
deriving DecidableEq, Repr

/-- Externally visible effects of processing one command message: replies
sent, whether the two passed file descriptors were retained, whether a DHCP
transaction was started, which client record removal was requested, and
whether an exception escaped into the socket loop (which then removes and
thereby disconnects the command connection). -/
structure CmdEffects where
  replies : List String
  retainedFds : Bool
  requestStarted : Bool
  clientRemoved : Option (String × String)
  raised : Bool
deriving DecidableEq, Repr

/-- No reply and no state change. -/
def noCmdEffects : CmdEffects :=
  { replies := [], retainedFds := false, requestStarted := false,
    clientRemoved := none, raised := false }

/-- Exactly one FAIL reply and no state change. -/
def failEffects : CmdEffects :=
  { replies := ["FAIL"], retainedFds := false, requestStarted := false,
    clientRemoved := none, raised := false }

/-- The effects of an accepted request command: one OK reply, both
descriptors retained, a DISCOVER transaction started. -/
def requestOkEffects : CmdEffects :=
  { replies := ["OK"], retainedFds := true, requestStarted := true,
    clientRemoved := none, raised := false }

/-- The effects of an accepted disconnect command: one OK reply and the
removal of the named client from the named server. -/
def disconnectOkEffects (fu dn : String) : CmdEffects :=
  { replies := ["OK"], retainedFds := false, requestStarted := false,
    clientRemoved := some (fu, dn), raised := false }

/-- The value of a nonempty all-digit character list. -/
def digitsVal (ds : List Char) : Option Nat :=
  if ds ≠ [] ∧ ds.all Char.isDigit then
    some (ds.foldl (fun a c => a * 10 + (c.toNat - 48)) 0)
  else none

/-- Python int(s) on the decimal index strings of this interface: an
optional minus sign followed by digits; everything else raises ValueError.
(Surrounding whitespace and underscores, which Python would also accept, do
not occur on this interface and are not modelled.) -/
def pyInt (s : String) : Option Int :=
  match s.data with
  | [] => none
  | c :: ds =>
    if c = Char.ofNat 45 then (digitsVal ds).map (fun n => -(n : Int))
    else (digitsVal (c :: ds)).map (fun n => (n : Int))

/-- Python list indexing files[i] on a list of n elements succeeds exactly
for -n <= i < n (negative indices count from the end), raising IndexError
otherwise. -/
def idxOk (n : Nat) (i : Int) : Bool :=
  decide (-(n : Int) ≤ i ∧ i < (n : Int))

/-- OvpnCmdConn._handle_request_cmd (odrd.py lines 681-742), with the
username parser (a ParseUsername callback yielding the realm), the realm
table and the server table abstracted as parameters; nfiles is the number of
file descriptors received with the message.  Each early return replies FAIL
and retains nothing (the method stores the username string on self before
validating, but keeps no descriptor, starts no transaction and touches no
client record). -/
def handleRequestCmd (parseU : String → Option String)
    (realms servers : List String) (params : CmdParams) (nfiles : Nat) :
    CmdEffects :=
  match params.full_username, params.ret_file_idx, params.config_file_idx,
      params.daemon_name with
  | some fu, some ri, some ci, some dn =>
    match pyInt ri with
    | none => failEffects
    | some i =>
      if ¬ idxOk nfiles i then failEffects
      else
        match pyInt ci with
        | none => failEffects
        | some j =>
          if ¬ idxOk nfiles j then failEffects
          else
            match parseU fu with
            | none => failEffects
            | some realm =>
              if ¬ (realm ∈ realms) then failEffects
              else if ¬ (dn ∈ servers) then failEffects
              else requestOkEffects
  | _, _, _, _ => failEffects

/-- OvpnCmdConn._handle_disconnect_cmd (odrd.py lines 744-762). -/
def handleDisconnectCmd (servers : List String) (params : CmdParams) :
    CmdEffects :=
  match params.full_username, params.daemon_name with
  | some fu, some dn =>
    if ¬ (dn ∈ servers) then failEffects
    else disconnectOkEffects fu dn
  | _, _ => failEffects

/-- OvpnCmdConn.handle_cmd (odrd.py lines 664-679): dispatch on the command
name; an unknown name replies FAIL. -/
def handleCmd (parseU : String → Option String) (realms servers : List String)
    (name : String) (params : CmdParams) (nfiles : Nat) : CmdEffects :=
  if name = "request" then handleRequestCmd parseU realms servers params nfiles
  else if name = "disconnect" then handleDisconnectCmd servers params
  else failEffects

/-- CommandConnection._parse_command (cmdconnection.py lines 61-72) plus
dispatch: undecodable JSON is logged and ignored without any reply; a
decoded object without a cmd key raises KeyError out of the handler (the
socket loop then removes, i.e. disconnects, the connection); otherwise
handle_cmd runs. -/
def parseCommand (parseU : String → Option String)
    (realms servers : List String) (msg : CmdMsg) (nfiles : Nat) : CmdEffects :=
  match msg with
  | CmdMsg.undecodable => noCmdEffects
  | CmdMsg.noCmdKey _ => { noCmdEffects with raised := true }
  | CmdMsg.cmd name params => handleCmd parseU realms servers name params nfiles

/-- Truncation to 32 bits. -/
def w32 (n : Nat) : Nat := n % 4294967296

/-- 32-bit right rotation by b. -/
def rotr (b n : Nat) : Nat := w32 ((n >>> b) ||| (n <<< (32 - b)))

/-- The SHA-256 choice function (not-x as xor with the 32-bit mask). -/
def shaCh (x y z : Nat) : Nat := (x &&& y) ^^^ ((x ^^^ 4294967295) &&& z)

/-- The SHA-256 majority function. -/
def shaMaj (x y z : Nat) : Nat := (x &&& y) ^^^ (x &&& z) ^^^ (y &&& z)

/-- The SHA-256 upper-case sigma-0. -/
def bigSigma0 (x : Nat) : Nat := rotr 2 x ^^^ rotr 13 x ^^^ rotr 22 x

/-- The SHA-256 upper-case sigma-1. -/
def bigSigma1 (x : Nat) : Nat := rotr 6 x ^^^ rotr 11 x ^^^ rotr 25 x

/-- The SHA-256 lower-case sigma-0. -/
def smallSigma0 (x : Nat) : Nat := rotr 7 x ^^^ rotr 18 x ^^^ (x >>> 3)

/-- The SHA-256 lower-case sigma-1. -/
def smallSigma1 (x : Nat) : Nat := rotr 17 x ^^^ rotr 19 x ^^^ (x >>> 10)

/-- The 64 SHA-256 round constants. -/
def sha256K : List Nat :=
  [1116352408, 1899447441, 3049323471, 3921009573, 961987163,
   1508970993, 2453635748, 2870763221, 3624381080, 310598401,
   607225278, 1426881987, 1925078388, 2162078206, 2614888103,
   3248222580, 3835390401, 4022224774, 264347078, 604807628,
   770255983, 1249150122, 1555081692, 1996064986, 2554220882,
   2821834349, 2952996808, 3210313671, 3336571891, 3584528711,
   113926993, 338241895, 666307205, 773529912, 1294757372,
   1396182291, 1695183700, 1986661051, 2177026350, 2456956037,
   2730485921, 2820302411, 3259730800, 3345764771, 3516065817,
   3600352804, 4094571909, 275423344, 430227734, 506948616,
   659060556, 883997877, 958139571, 1322822218, 1537002063,
   1747873779, 1955562222, 2024104815, 2227730452, 2361852424,
   2428436474, 2756734187, 3204031479, 3329325298]

/-- The SHA-256 initial hash value. -/
def sha256H0 : List Nat :=
  [1779033703, 3144134277, 1013904242, 2773480762, 1359893119,
   2600822924, 528734635, 1541459225]

/-- Big-endian 32-bit words of a byte list (complete 4-byte groups). -/
def words32 : List Nat → List Nat
  | a :: b :: c :: d :: rest =>
    (a * 16777216 + b * 65536 + c * 256 + d) :: words32 rest
  | _ => []

/-- The eight big-endian bytes of a 64-bit value. -/
def natToBytes8 (n : Nat) : List Nat :=
  [n / 2 ^ 56 % 256, n / 2 ^ 48 % 256, n / 2 ^ 40 % 256, n / 2 ^ 32 % 256,
   n / 2 ^ 24 % 256, n / 2 ^ 16 % 256, n / 2 ^ 8 % 256, n % 256]

/-- SHA-256 padding: append 0x80, zeros to 56 mod 64, and the bit length as
eight big-endian bytes. -/
def shaPad (msg : List Nat) : List Nat :=
  msg ++ 128 :: List.replicate ((119 - msg.length % 64) % 64) 0 ++
    natToBytes8 (8 * msg.length)

/-- Extension of the 16 message-schedule words of one block to 64. -/
def shaSchedule (ws : List Nat) : List Nat :=
  (List.range 48).foldl
    (fun w _ =>
      w ++ [w32 (smallSigma1 (w.getD (w.length - 2) 0) + w.getD (w.length - 7) 0 +
        smallSigma0 (w.getD (w.length - 15) 0) + w.getD (w.length - 16) 0)])
    ws

/-- One SHA-256 compression round on the state [a,b,c,d,e,f,g,h]. -/
def shaCompressWord (st : List Nat) (k w : Nat) : List Nat :=
  match st with
  | [a, b, c, d, e, f, g, h] =>
    let t1 := w32 (h + bigSigma1 e + shaCh e f g + k + w)
    let t2 := w32 (bigSigma0 a + shaMaj a b c)
    [w32 (t1 + t2), a, b, c, w32 (d + t1), e, f, g]
  | _ => st

/-- Compression of one 64-byte block into the running hash. -/
def shaCompressBlock (hs : List Nat) (block : List Nat) : List Nat :=
  let ws := shaSchedule (words32 block)
  let st := (List.zip sha256K ws).foldl
    (fun s kw => shaCompressWord s kw.1 kw.2) hs
  List.zipWith (fun x y => w32 (x + y)) hs st

/-- The 64-byte chunks of a list (fuel-driven structural recursion; fuel =
length suffices since every step consumes 64 bytes). -/
def chunks64 : Nat → List Nat → List (List Nat)
  | _, [] => []
  | 0, _ :: _ => []
  | fuel + 1, l => l.take 64 :: chunks64 fuel (l.drop 64)

/-- SHA-256 of a byte list, as 32 digest bytes (hashlib.sha256(...).digest()). -/
def sha256 (msg : List Nat) : List Nat :=
  let padded := shaPad msg
  let hs := (chunks64 padded.length padded).foldl shaCompressBlock sha256H0
  (hs.map natToBytes4).flatten

/-- A lower-case hexadecimal digit. -/
def hexChar (n : Nat) : Char :=
  if n < 10 then Char.ofNat (48 + n) else Char.ofNat (87 + n)

/-- The two hexadecimal characters of one byte. -/
def byteHexChars (b : Nat) : List Char :=
  [hexChar (b / 16), hexChar (b % 16)]

/-- hashlib hexdigest() of a digest byte list, as characters. -/
def hexDigestChars (bs : List Nat) : List Char :=
  (bs.map byteHexChars).flatten

/-- The value of one lower-case hexadecimal character, as int(c, 16) sees
the characters hexdigest produces. -/
def hexVal (c : Char) : Nat :=
  if c.toNat ≤ 57 then c.toNat - 48 else c.toNat - 87

/-- int(s, 16) on a hexdigest slice. -/
def parseHexChars (cs : List Char) : Nat :=
  cs.foldl (fun a c => a * 16 + hexVal c) 0

/-- The gateway written by the IPv6 block: either the configured
default_gateway_ipv6 string verbatim, or the numeric network address plus
one. -/
inductive Ipv6Gateway where
  | configured (s : String)
  | derived (addr : Nat)
deriving DecidableEq, Repr

/-- The IPv6 address computed by OvpnCmdConn._success_handler (odrd.py lines
574-582) on the UTF-8 bytes of full_username, of str(datetime.date.today())
and of the shared secret (UTF-8 encoding distributes over Python string
concatenation), and the numeric network address of the realm's IPv6 prefix:
network_address + int(sha256(username + date + secret).hexdigest()[:16], 16). -/
def odrdIpv6Address (username date secret : List Nat) (network : Nat) : Nat :=
  network +
    parseHexChars ((hexDigestChars (sha256 (username ++ date ++ secret))).take 16)

/-- The IPv6 gateway of the same block (odrd.py lines 584-587). -/
def odrdIpv6Gateway (network : Nat) (default_gateway_ipv6 : Option String) :
    Ipv6Gateway :=
  match default_gateway_ipv6 with
  | some s => Ipv6Gateway.configured s
  | none => Ipv6Gateway.derived (network + 1)

/-- Modelled from the claim C8 wording: the prefix network address plus the
first 64 bits of the SHA-256 digest interpreted as a big-endian integer. -/
def specIpv6Address (username date secret : List Nat) (network : Nat) : Nat :=
  network + bytesToNat ((sha256 (username ++ date ++ secret)).take 8)

/-- One line of the per-client configuration fragment, one constructor per
distinct line shape the success handler writes (each renders to a distinct
line prefix, so the constructors are faithful to the text). -/
inductive ConfigLine where
  | ifconfigPush (ip mask : String)
  | ipWin32Dynamic
  | ifconfigIpv6Push (addr : Nat) (gw : Ipv6Gateway)
  | vlanPvid (vid : Int)
  | routeGateway (gw : String)
  | routeIpv6Default
  | redirectGatewayDef1
  | route (net mask gw : String)
  | routeIpv6 (net gw : String)
  | redirectPrivate
  | dhcpOptionDNS (ip : String)
  | dhcpOptionDomain (d : String)
deriving DecidableEq, Repr

/-- The realm fields the success handler reads (realm data after
configuration load; subnet_ipv6 carries the numeric network address of the
configured prefix when present). -/
structure RealmData where
  vid : Option Int
  provide_default_route : Bool
  default_gateway_ipv4 : Option String
  subnet_ipv6 : Option Nat
  default_gateway_ipv6 : Option String
  static_routes_ipv4 : Option (List Route)
  static_routes_ipv6 : Option (List (String × String))
deriving DecidableEq, Repr

/-- Outcome of OvpnCmdConn._success_handler: an early FAILED status write,
or the configuration fragment written before SUCCEEDED. -/
inductive SuccessOutcome where
  | failed
  | wrote (lines : List ConfigLine)
deriving DecidableEq, Repr

/-- The fragment built by OvpnCmdConn._success_handler (odrd.py lines
544-646) for a result delivered by handle_dhcp_ack.  Such a result always
carries domain, dns and the three timeouts, so the lease-indication check of
lines 560-563 passes and the domain line of line 641 is always written; the
handler fails early only when ip_address or subnet_mask is missing.  Lines
appear in source order: ifconfig-push, ip-win32 dynamic, the optional
IPv6 push, the optional vlan-pvid, the route-gateway from the realm override
or else the DHCP gateway, then either the default-route block or the static
routes, redirect-private, the DNS options and the domain option. -/
def successFragment (realm : RealmData) (username date secret : List Nat)
    (res : AckResult) : SuccessOutcome :=
  match res.ip_address, res.subnet_mask with
  | some ip, some mask =>
    let l1 := [ConfigLine.ifconfigPush ip mask, ConfigLine.ipWin32Dynamic]
    let l2 :=
      match realm.subnet_ipv6 with
      | some network =>
        [ConfigLine.ifconfigIpv6Push
          (odrdIpv6Address username date secret network)
          (odrdIpv6Gateway network realm.default_gateway_ipv6)]
      | none => []
    let l3 :=
      match realm.vid with
      | some v => [ConfigLine.vlanPvid v]
      | none => []
    let l4 :=
      match realm.default_gateway_ipv4 with
      | some g => [ConfigLine.routeGateway g]
      | none =>
        match res.gateway with
        | some g => [ConfigLine.routeGateway g]
        | none => []
    let l5 :=
      if realm.provide_default_route then
        if realm.default_gateway_ipv6.isSome then
          [ConfigLine.routeIpv6Default, ConfigLine.redirectGatewayDef1]
        else if res.gateway.isSome ∨ realm.default_gateway_ipv4.isSome then
          [ConfigLine.redirectGatewayDef1]
        else []
      else
        (realm.static_routes_ipv4.getD [] ++ res.static_routes.getD []).map
          (fun r => ConfigLine.route r.1 r.2.1 r.2.2) ++
        (if realm.subnet_ipv6.isSome then realm.static_routes_ipv6.getD []
         else []).map (fun r => ConfigLine.routeIpv6 r.1 r.2)
    SuccessOutcome.wrote
      (l1 ++ l2 ++ l3 ++ l4 ++ l5 ++ [ConfigLine.redirectPrivate] ++
       res.dns.map ConfigLine.dhcpOptionDNS ++
       [ConfigLine.dhcpOptionDomain res.domain])
  | _, _ => SuccessOutcome.failed

/-- One datagram as received by DhcpAddressRequestor.handle_socket: a
zero-length read, data on which DecodePacket raises, or a decoded packet. -/
inductive Dgram where
  | empty
  | undecodable
  | decoded (p : DhcpPacket)
deriving DecidableEq, Repr

/-- The body of DhcpAddressRequestor.handle_socket (dhcprequestor.py lines
520-558) without its try/except: an error value carries the state and
effects accumulated before the raise (decode failures, an empty
dhcp_message_type option making [0] raise IndexError, and raises inside
handle_dhcp_ack). -/
def handleSocketBody (jr jb : Int) (d : Dgram) (reqs : ReqMap) :
    Except (ReqMap × Effects) (ReqMap × Effects) :=
  match d with
  | Dgram.empty => Except.ok (reqs, noEffects)
  | Dgram.undecodable => Except.error (reqs, noEffects)
  | Dgram.decoded p =>
    if ¬ p.is_dhcp_packet ∨ p.dhcp_message_type = none then
      Except.ok (reqs, noEffects)
    else
      match getOpt p.dhcp_message_type with
      | [] => Except.error (reqs, noEffects)
      | t :: _ =>
        if ¬ (t = 2 ∨ t = 5 ∨ t = 6) then Except.ok (reqs, noEffects)
        else
          match lookupXid reqs (bytesToNat p.xid) with
          | none => Except.ok (reqs, noEffects)
          | some tx =>
            if t = 2 then
              let r := handleDhcpOffer tx p
              Except.ok (updateXid reqs (bytesToNat p.xid) r.1, r.2)
            else if t = 5 then
              let r := handleDhcpAck tx p jr jb
              let reqs' :=
                if r.2.1 then eraseXid reqs (bytesToNat p.xid)
                else updateXid reqs (bytesToNat p.xid) r.1
              if r.2.2.2 then Except.error (reqs', r.2.2.1)
              else Except.ok (reqs', r.2.2.1)
            else
              let r := handleDhcpNack tx p
              let reqs' :=
                if r.2.1 then eraseXid reqs (bytesToNat p.xid)
                else updateXid reqs (bytesToNat p.xid) r.1
              Except.ok (reqs', r.2.2)

/-- DhcpAddressRequestor.handle_socket: the whole body runs inside
try/except Exception, so a raise is logged and the partial state stands. -/
def handleSocket (jr jb : Int) (d : Dgram) (reqs : ReqMap) : ReqMap × Effects :=
  match handleSocketBody jr jb d reqs with
  | Except.ok r => r
  | Except.error r => r

/-- handle_socket viewed as a Python method that could in principle raise:
because its whole body sits in try/except Exception, it never does. -/
def handleSocketMethod (jr jb : Int) (d : Dgram) (reqs : ReqMap) :
    Except Unit (ReqMap × Effects) :=
  Except.ok (handleSocket jr jb d reqs)

/-- One step of SocketLoop._handle_ready_input_sockets for the requestor
(socketloop.py lines 40-47): the handler is invoked and removed from the
loop exactly when its handle_socket raises; the boolean reports whether it
is still registered afterwards. -/
def socketLoopStep (jr jb : Int) (d : Dgram) (reqs : ReqMap) :
    (ReqMap × Effects) × Bool :=
  match handleSocketMethod jr jb d reqs with
  | Except.ok r => (r, true)
  | Except.error _ => ((reqs, noEffects), false)

/-- The five acceptance conditions of the response ingress filter, as split
between handle_socket (valid DHCP packet with a message type among OFFER 2,
ACK 5, NACK 6; known xid) and _valid_source_address (source port 67 and
source IP among the transaction's servers). -/
def packetAccepted (p : DhcpPacket) (reqs : ReqMap) : Bool :=
  p.is_dhcp_packet &&
  p.dhcp_message_type.isSome &&
  (match getOpt p.dhcp_message_type with
   | t :: _ => decide (t = 2 ∨ t = 5 ∨ t = 6)
   | [] => false) &&
  (match lookupXid reqs (bytesToNat p.xid) with
   | some tx => validSourceAddress tx p
   | none => false)

/-- Iterated firing of the retry timer: final transaction, final xid map,
and the per-firing effects in order. -/
def timeoutTrace : Nat → Transaction → ReqMap → Transaction × ReqMap × List Effects
  | 0, tx, reqs => (tx, reqs, [])
  | n + 1, tx, reqs =>
    let r := handleTimeout tx reqs
    let rest := timeoutTrace n r.1 r.2.1
    (rest.1, rest.2.1, r.2.2 :: rest.2.2)

/-- A transaction in AR_REQUEST awaiting the scenario-E2 ACK from server
123.123.123.123 (the fixture of test_dhcprequestor.py). -/
def txE2 : Transaction :=
  { xid := 7, state := some ArState.request, local_ip := 2130772483,
    client_identifier := [116, 101, 115, 116], server_ips := [2071690107],
    target_addr := none, max_retries := 3, initial_timeout := 4,
    lease_time := none, start_time := 1580000000, timeout := 4,
    timeout_armed := true, last_packet := none, packet_retries := 0 }

/-- The scenario-E2 ACK: yiaddr 1.2.3.4, router 2.3.4.5, and option-121
bytes 00 04 00 00 00 10 0A 0C 05 00 00 00 (a default route via 4.0.0.0 and
10.12.0.0/16 via 5.0.0.0). -/
def ackE2 : DhcpPacket :=
  { source_address := some (2071690107, 67), is_dhcp_packet := true,
    dhcp_message_type := some [5], xid := [0, 0, 0, 7], yiaddr := [1, 2, 3, 4],
    subnet_mask := some [255, 255, 255, 0], router := some [2, 3, 4, 5],
    domain_name := some [115, 99, 99],
    domain_name_server := some [1, 0, 0, 0, 2, 0, 0, 0, 3, 0, 0, 0],
    classless_static_route := some [0, 4, 0, 0, 0, 16, 10, 12, 5, 0, 0, 0],
    ip_address_lease_time := some [0, 0, 35, 40],
    renewal_time_value := some [0, 0, 1, 44],
    rebinding_time_value := some [0, 0, 27, 88], server_identifier := none }

/-- The parsed option-121 routes of the E2 ACK. -/
def rsE2 : List Route :=
  [("0.0.0.0", "0.0.0.0", "4.0.0.0"), ("10.12.0.0", "255.255.0.0", "5.0.0.0")]

/-- The success-handler result for the E2 ACK, as the daemon computes it. -/
def resE2 : AckResult :=
  { domain := "scc", ip_address := some "1.2.3.4",
    subnet_mask := some "255.255.255.0", gateway := some "4.0.0.0",
    dns := ["1.0.0.0", "2.0.0.0", "3.0.0.0"],
    static_routes := some [("10.12.0.0", "255.255.0.0", "5.0.0.0")],
    lease_timeout := 1580009000, renewal_timeout := 1580000300,
    rebinding_timeout := 1580007000 }

/-- An ACK carrying lease time 9000 and an explicit renewal_time_value of
9001, with no rebinding_time_value (so T2 defaults to floor(9000 x 0.875) =
7875). -/
def ackC5 : DhcpPacket :=
  { ackE2 with
      classless_static_route := none
      renewal_time_value := some [0, 0, 35, 41]
      rebinding_time_value := none }

/-- The result the daemon derives from ackC5 (with zero jitter). -/
def resC5 : AckResult :=
  { domain := "scc", ip_address := some "1.2.3.4",
    subnet_mask := some "255.255.255.0", gateway := some "2.3.4.5",
    dns := ["1.0.0.0", "2.0.0.0", "3.0.0.0"], static_routes := none,
    lease_timeout := 1580009000, renewal_timeout := 1580009001,
    rebinding_timeout := 1580007875 }

/-- An ACK with lease 9000 and neither T1 nor T2. -/
def ackW5 : DhcpPacket :=
  { ackE2 with
      classless_static_route := none
      renewal_time_value := none
      rebinding_time_value := none }

/-- The result the daemon derives from ackW5 with the worst-case jitters
jr = +5 and jb = -5. -/
def resW5 : AckResult :=
  { domain := "scc", ip_address := some "1.2.3.4",
    subnet_mask := some "255.255.255.0", gateway := some "2.3.4.5",
    dns := ["1.0.0.0", "2.0.0.0", "3.0.0.0"], static_routes := none,
    lease_timeout := 1580009000, renewal_timeout := 1580004505,
    rebinding_timeout := 1580007870 }

/-- A transaction in AR_DISCOVER with two configured servers 10.0.0.1 and
10.0.0.2. -/
def txC6 : Transaction :=
  { xid := 9, state := some ArState.discover, local_ip := 2130772483,
    client_identifier := [97], server_ips := [167772161, 167772162],
    target_addr := none, max_retries := 3, initial_timeout := 4,
    lease_time := none, start_time := 0, timeout := 4, timeout_armed := true,
    last_packet := none, packet_retries := 0 }

/-- A valid OFFER from 10.0.0.1:67 whose server_identifier option carries
two bytes, on which IPv4Address raises, so _retrieve_server_ip keeps the
list. -/
def offerC6 : DhcpPacket :=
  { source_address := some (167772161, 67), is_dhcp_packet := true,
    dhcp_message_type := some [2], xid := [0, 0, 0, 9], yiaddr := [10, 1, 2, 3],
    subnet_mask := none, router := none, domain_name := none,
    domain_name_server := none, classless_static_route := none,
    ip_address_lease_time := none, renewal_time_value := none,
    rebinding_time_value := none, server_identifier := some [1, 2] }

/-- An OFFER with correct everything except an xid (8) unknown to the
requestor that only tracks xid 9. -/
def packetC4 : DhcpPacket :=
  { offerC6 with xid := [0, 0, 0, 8], server_identifier := some [10, 0, 0, 1] }

/-- An ACK from the valid source whose option-121 value makes
parse_classless_static_routes raise ValueError inside handle_dhcp_ack. -/
def ackRaising : DhcpPacket :=
  { ackE2 with classless_static_route := some [4, 255, 1, 2, 3, 4] }

/-- A realm with a vlan id, static IPv4 routes and no default route. -/
def realmW : RealmData :=
  { vid := some 12, provide_default_route := false,
    default_gateway_ipv4 := none, subnet_ipv6 := none,
    default_gateway_ipv6 := none,
    static_routes_ipv4 := some [("10.0.0.0", "255.0.0.0", "10.0.0.1")],
    static_routes_ipv6 := none }

/-- The fragment the daemon writes for realmW and the E2 result. -/
def linesW : List ConfigLine :=
  [ConfigLine.ifconfigPush "1.2.3.4" "255.255.255.0",
   ConfigLine.ipWin32Dynamic,
   ConfigLine.vlanPvid 12,
   ConfigLine.routeGateway "4.0.0.0",
   ConfigLine.route "10.0.0.0" "255.0.0.0" "10.0.0.1",
   ConfigLine.route "10.12.0.0" "255.255.0.0" "5.0.0.0",
   ConfigLine.redirectPrivate,
   ConfigLine.dhcpOptionDNS "1.0.0.0",
   ConfigLine.dhcpOptionDNS "2.0.0.0",
   ConfigLine.dhcpOptionDNS "3.0.0.0",
   ConfigLine.dhcpOptionDomain "scc"]

/-- The fuel argument of parseCSRgo is irrelevant as long as it bounds the
list length from below. -/
theorem parseCSRgo_nil (fuel : Nat) :
    parseCSRgo fuel [] = ParseOutcome.routes [] := by
  cases fuel <;> rfl

theorem parseCSRgo_fuel (fuel fuel' : Nat) (l : List Nat)
    (h : l.length ≤ fuel) (h' : l.length ≤ fuel') :
    parseCSRgo fuel l = parseCSRgo fuel' l := by
  induction fuel using Nat.strong_induction_on generalizing fuel' l with
  | _ fuel ih =>
    match fuel, fuel', l with
    | f, f', [] => rw [parseCSRgo_nil, parseCSRgo_nil]
    | 0, _, x :: xs => simp at h
    | _ + 1, 0, x :: xs => simp at h'
    | f + 1, f' + 1, w :: rest =>
      simp only [parseCSRgo]
      by_cases h5 : 4 ≤ rest.length
      · simp only [if_pos h5]
        by_cases hso : 4 < significantOctets w
        · simp only [if_pos hso]
        · simp only [if_neg hso]
          by_cases haddr : bytesToNat (rest.take (significantOctets w) ++
              List.replicate (4 - significantOctets w) 0) % 2 ^ (32 - w) ≠ 0
          · simp only [if_pos haddr]
          · simp only [if_neg haddr]
            by_cases hgw : ((rest.drop (significantOctets w)).take 4).length ≠ 4
            · simp only [if_pos hgw]
            · simp only [if_neg hgw]
              have hrec : parseCSRgo f ((rest.drop (significantOctets w)).drop 4) =
                  parseCSRgo f' ((rest.drop (significantOctets w)).drop 4) := by
                apply ih f (Nat.lt_succ_self f)
                · simp only [List.length_drop, List.length_cons] at h ⊢
                  omega
                · simp only [List.length_drop, List.length_cons] at h' ⊢
                  omega
              rw [hrec]
      · simp only [if_neg h5]

theorem significantOctets_eq (w : Nat) : significantOctets w = (w + 7) / 8 := by
  unfold significantOctets
  split <;> omega

theorem specDecodeCSRgo_eq (fuel : Nat) (l : List Nat) :
    parseCSRgo fuel l = specDecodeCSRgo fuel l := by
  induction fuel generalizing l with
  | zero => cases l <;> rfl
  | succ f ih =>
    cases l with
    | nil => rfl
    | cons w rest =>
      simp only [parseCSRgo, specDecodeCSRgo, significantOctets_eq]
      have hso : (4 < (w + 7) / 8) = (32 < w) := by
        simp only [eq_iff_iff]
        omega
      simp only [specOctetCount, hso, ih]

theorem parseCSRgo_encode (es : List CSREntry) (fuel : Nat)
    (hwf : ∀ e ∈ es, wfEntry e) (hfuel : (encodeCSR es).length ≤ fuel) :
    parseCSRgo fuel (encodeCSR es) = ParseOutcome.routes (es.map tripleOfEntry) := by
  induction es generalizing fuel with
  | nil => exact parseCSRgo_nil fuel
  | cons e es ih =>
    obtain ⟨hw, hnet, hgw, hhost⟩ := hwf e (List.mem_cons_self e es)
    have hso : significantOctets e.width ≤ 4 := by
      rw [significantOctets_eq]
      omega
    simp only [encodeCSR, List.length_cons, List.length_append] at hfuel
    obtain ⟨f, rfl⟩ : ∃ f, fuel = f + 1 := ⟨fuel - 1, by omega⟩
    simp only [encodeCSR, parseCSRgo]
    have hlen : 4 ≤ (e.net ++ e.gw ++ encodeCSR es).length := by
      simp only [List.length_append]
      omega
    rw [if_pos hlen, if_neg (by omega)]
    have htake : (e.net ++ e.gw ++ encodeCSR es).take (significantOctets e.width)
        = e.net := by
      rw [List.append_assoc, List.take_append_of_le_length (by omega),
        ← hnet, List.take_length]
    have hdrop : (e.net ++ e.gw ++ encodeCSR es).drop (significantOctets e.width)
        = e.gw ++ encodeCSR es := by
      rw [List.append_assoc, List.drop_append_of_le_length (by omega),
        ← hnet, List.drop_length, List.nil_append]
    rw [htake, hdrop, if_neg (by simpa using hhost)]
    have htake4 : (e.gw ++ encodeCSR es).take 4 = e.gw := by
      rw [List.take_append_of_le_length (by omega), ← hgw, List.take_length]
    have hdrop4 : (e.gw ++ encodeCSR es).drop 4 = encodeCSR es := by
      rw [List.drop_append_of_le_length (by omega), ← hgw, List.drop_length,
        List.nil_append]
    rw [htake4, hdrop4, if_neg (by simp [hgw])]
    rw [ih f (fun x hx => hwf x (List.mem_cons_of_mem e hx)) (by omega)]
    simp [tripleOfEntry, htake]

/-- Claim C2, counterexample.  The input 04 FF 01 02 03 04 is a single
complete entry (mask width 4, one significant octet FF, 4-byte gateway
1.2.3.4): its width is not above 32, its gateway is not truncated and no
trailing bytes remain, so under the claim the parser would have to return the
route list without raising.  Instead the significant octet 255 has bits set
below the /4 mask, the strict IPv4Network constructor raises ValueError, and
the exception propagates out of parse_classless_static_routes (it is neither
the malformed-signal None nor a returned route list). -/
theorem claim_C2_counterexample :
    parse_classless_static_routes [4, 255, 1, 2, 3, 4] = ParseOutcome.raised := by
  decide

/-- Claim C2, amended.  parse_classless_static_routes behaves exactly as the
claim-level decoder specDecodeCSR: scanning entries left to right while at
least five bytes remain, a mask width above 32 returns the malformed signal
(None); an entry whose zero-padded network value has a bit set below the mask
width makes the function raise ValueError instead of returning (this raise is
checked before the gateway and takes precedence over a short gateway); a
truncated gateway and 1-4 trailing bytes return the malformed signal; and for
every well-formed input - a concatenation of entries with width at most 32,
exactly ceil(width/8) network octets none of whose bits lie below the mask
width, and 4-byte gateways - it returns, without raising, the list of
(network, netmask, gateway) dotted-quad triples in input order with each
network zero-padded to four octets (a width-0 entry consuming zero
significant octets). -/
theorem claim_C2 :
    (∀ l : List Nat, parse_classless_static_routes l = specDecodeCSR l) ∧
    (∀ es : List CSREntry, (∀ e ∈ es, wfEntry e) →
      parse_classless_static_routes (encodeCSR es) =
        ParseOutcome.routes (es.map tripleOfEntry)) := by
  constructor
  · intro l
    exact specDecodeCSRgo_eq l.length l
  · intro es hwf
    exact parseCSRgo_encode es (encodeCSR es).length hwf (Nat.le_refl _)

/-- Witness for claim C2: a concrete two-entry route list (192.168.10.0/24
via 192.168.10.1, then a default route via 172.16.17.1) is well formed, and
the theorem instantiated at it produces the decoded triples. -/
theorem claim_C2_witness :
    (∀ e ∈ [CSREntry.mk 24 [192, 168, 10] [192, 168, 10, 1],
            CSREntry.mk 0 [] [172, 16, 17, 1]], wfEntry e) ∧
    parse_classless_static_routes
        (encodeCSR [CSREntry.mk 24 [192, 168, 10] [192, 168, 10, 1],
                    CSREntry.mk 0 [] [172, 16, 17, 1]]) =
      ParseOutcome.routes
        ([CSREntry.mk 24 [192, 168, 10] [192, 168, 10, 1],
          CSREntry.mk 0 [] [172, 16, 17, 1]].map tripleOfEntry) :=
  ⟨by decide, claim_C2.2 _ (by decide)⟩

theorem routesFoldGo (rs : List Route) (g : Option String) (acc : List Route) :
    rs.foldl
      (fun acc r =>
        if isDefaultRoute r then (some r.2.2, acc.2)
        else (acc.1, acc.2 ++ [r]))
      (g, acc) =
    ((match (rs.filter isDefaultRoute).getLast? with
      | some r => some r.2.2
      | none => g),
     acc ++ rs.filter (fun r => ! isDefaultRoute r)) := by
  induction rs generalizing g acc with
  | nil => simp
  | cons r rs ih =>
    rw [List.foldl_cons]
    by_cases hd : isDefaultRoute r
    · rw [if_pos hd, ih, List.filter_cons, List.filter_cons]
      simp only [hd, Bool.not_true, Bool.false_eq_true, if_true, if_false,
        ite_true, ite_false, List.getLast?_cons]
      cases h : (rs.filter isDefaultRoute).getLast? <;> simp [h]
    · rw [if_neg hd, ih, List.filter_cons, List.filter_cons]
      simp only [hd, Bool.not_false, Bool.false_eq_true, if_true, if_false,
        ite_true, ite_false]
      simp

/-- The two fields that the classless_static_route block of handle_dhcp_ack
computes, characterized: static_routes is the parsed list minus the default
routes, and the gateway is the gateway of the last default route (none when
the list has no default route). -/
theorem routesFold_eq (rs : List Route) :
    routesFold rs =
      ((rs.filter isDefaultRoute).getLast?.map (fun r => r.2.2),
       rs.filter (fun r => ! isDefaultRoute r)) := by
  rw [routesFold, routesFoldGo]
  cases h : (rs.filter isDefaultRoute).getLast? <;> simp [h]

/-- Claim C1: for every ACK handled by handle_dhcp_ack in state AR_REQUEST
(from a valid source) whose classless_static_route option parses cleanly into
the route list rs, the result delivered to the success handler has
static_routes equal to rs with all default routes (network and netmask
0.0.0.0) removed, its gateway is the gateway of the last default route of rs
when one exists, and otherwise the result has no gateway at all - in
particular any gateway previously derived from the router option is
discarded. -/
theorem claim_C1 (tx : Transaction) (p : DhcpPacket) (jr jb : Int)
    (bs : List Nat) (rs : List Route) (res : AckResult)
    (hst : tx.state = some ArState.request)
    (hsrc : validSourceAddress tx p = true)
    (hopt : p.classless_static_route = some bs)
    (hparse : parse_classless_static_routes bs = ParseOutcome.routes rs)
    (hres : (handleDhcpAck tx p jr jb).2.2.1.success = some res) :
    res.static_routes = some (rs.filter (fun r => ! isDefaultRoute r)) ∧
    res.gateway = (rs.filter isDefaultRoute).getLast?.map (fun r => r.2.2) := by
  unfold handleDhcpAck at hres
  rw [hst] at hres
  simp only [ne_eq, not_true_eq_false, if_false, hsrc, Bool.not_true,
    ite_false, ite_true, if_neg, not_false_eq_true] at hres
  unfold buildAckResult at hres
  cases hdom : asciiDecode (getOpt p.domain_name) with
  | none =>
    rw [hdom] at hres
    simp [noEffects] at hres
  | some dom =>
    rw [hdom, hopt] at hres
    dsimp only at hres
    rw [hparse] at hres
    simp only [noEffects] at hres
    have hres' := Option.some.inj hres
    subst hres'
    rw [routesFold_eq]
    constructor <;> simp

/-- Witness for claim C1 on the E2 scenario: the option-121 default route
becomes the gateway 4.0.0.0 and static_routes keeps only 10.12.0.0/16. -/
theorem claim_C1_witness :
    resE2.static_routes = some (rsE2.filter (fun r => ! isDefaultRoute r)) ∧
    resE2.gateway = (rsE2.filter isDefaultRoute).getLast?.map (fun r => r.2.2) :=
  claim_C1 txE2 ackE2 0 0 [0, 4, 0, 0, 0, 16, 10, 12, 5, 0, 0, 0] rsE2 resE2
    (by decide) (by decide) (by decide) (by decide) (by decide)

/-- A result delivered to the success handler is exactly the value built by
the result-construction part of handle_dhcp_ack. -/
theorem ackSuccess_eq_build (tx : Transaction) (p : DhcpPacket) (jr jb : Int)
    (res : AckResult)
    (hres : (handleDhcpAck tx p jr jb).2.2.1.success = some res) :
    buildAckResult tx.start_time jr jb p = Except.ok res := by
  unfold handleDhcpAck at hres
  split at hres
  · simp [noEffects] at hres
  · split at hres
    · simp [noEffects] at hres
    · dsimp only at hres
      cases hb : buildAckResult tx.start_time jr jb p with
      | ok r =>
        rw [hb] at hres
        simp only [noEffects] at hres
        exact congrArg Except.ok (Option.some.inj hres)
      | error e =>
        rw [hb] at hres
        simp [noEffects] at hres

/-- The three timeouts of any successfully built ACK result are start_time
plus the respective deltas. -/
theorem buildAckResult_timeouts (st : Nat) (jr jb : Int) (p : DhcpPacket)
    (res : AckResult) (h : buildAckResult st jr jb p = Except.ok res) :
    res.lease_timeout =
        (st : Int) + (bytesToNat (getOpt p.ip_address_lease_time) : Int) ∧
    res.renewal_timeout = (st : Int) + renewalDelta p jr ∧
    res.rebinding_timeout = (st : Int) + rebindingDelta p jb := by
  unfold buildAckResult at h
  cases hdom : asciiDecode (getOpt p.domain_name) with
  | none =>
    rw [hdom] at h
    cases h
  | some dom =>
    rw [hdom] at h
    dsimp only at h
    cases hopt : p.classless_static_route with
    | none =>
      rw [hopt] at h
      dsimp only at h
      rw [← Except.ok.inj h]
      exact ⟨rfl, rfl, rfl⟩
    | some bs =>
      rw [hopt] at h
      dsimp only at h
      cases hp : parse_classless_static_routes bs with
      | routes rs =>
        rw [hp] at h
        dsimp only at h
        rw [← Except.ok.inj h]
        exact ⟨rfl, rfl, rfl⟩
      | malformed =>
        rw [hp] at h
        dsimp only at h
        rw [← Except.ok.inj h]
        exact ⟨rfl, rfl, rfl⟩
      | raised =>
        rw [hp] at h
        cases h

/-- Claim C5, counterexample: handle_dhcp_ack derives all three timeouts
from the valid ACK ackC5 and delivers them to the success handler, yet
renewal_timeout (start + 9001) exceeds rebinding_timeout (start + 7875): the
code never compares or clamps the three values. -/
theorem claim_C5_counterexample :
    (handleDhcpAck txE2 ackC5 0 0).2.2.1.success = some resC5 ∧
    resC5.rebinding_timeout < resC5.renewal_timeout := by
  constructor
  · decide
  · decide

/-- Claim C5, amended.  The code applies no ordering constraint: for every
result delivered by handle_dhcp_ack, renewal_timeout <= rebinding_timeout
holds exactly when the derived deltas are so ordered, and rebinding_timeout
<= lease_timeout exactly when the rebinding delta is at most the lease
delta; hence the claimed chain can fail whenever the ACK carries unordered
explicit T1/T2 values (or a tiny lease with adverse jitter).  It does hold in
the default-derivation case: when the ACK carries neither renewal_time_value
nor rebinding_time_value, the jitters lie in [-5, 5], and the lease delta is
at least 40 seconds, then renewal_timeout <= rebinding_timeout <=
lease_timeout. -/
theorem claim_C5 :
    (∀ (tx : Transaction) (p : DhcpPacket) (jr jb : Int) (res : AckResult),
      (handleDhcpAck tx p jr jb).2.2.1.success = some res →
      ((res.renewal_timeout ≤ res.rebinding_timeout ↔
          renewalDelta p jr ≤ rebindingDelta p jb) ∧
       (res.rebinding_timeout ≤ res.lease_timeout ↔
          rebindingDelta p jb ≤
            (bytesToNat (getOpt p.ip_address_lease_time) : Int)))) ∧
    (∀ (tx : Transaction) (p : DhcpPacket) (jr jb : Int) (res : AckResult),
      (handleDhcpAck tx p jr jb).2.2.1.success = some res →
      p.renewal_time_value = none → p.rebinding_time_value = none →
      -5 ≤ jr → jr ≤ 5 → -5 ≤ jb → jb ≤ 5 →
      40 ≤ bytesToNat (getOpt p.ip_address_lease_time) →
      (res.renewal_timeout ≤ res.rebinding_timeout ∧
       res.rebinding_timeout ≤ res.lease_timeout)) := by
  constructor
  · intro tx p jr jb res hres
    obtain ⟨hl, hr, hb⟩ :=
      buildAckResult_timeouts tx.start_time jr jb p res
        (ackSuccess_eq_build tx p jr jb res hres)
    rw [hl, hr, hb]
    omega
  · intro tx p jr jb res hres hT1 hT2 hjr1 hjr2 hjb1 hjb2 hlease
    obtain ⟨hl, hr, hb⟩ :=
      buildAckResult_timeouts tx.start_time jr jb p res
        (ackSuccess_eq_build tx p jr jb res hres)
    rw [hl, hr, hb]
    unfold renewalDelta rebindingDelta
    rw [hT1, hT2]
    dsimp only
    omega

/-- Witness for claim C5: on an ACK carrying only the lease time 9000, with
adversarial jitters +5 and -5, the chain of timeouts is ordered. -/
theorem claim_C5_witness :
    resW5.renewal_timeout ≤ resW5.rebinding_timeout ∧
    resW5.rebinding_timeout ≤ resW5.lease_timeout :=
  claim_C5.2 txE2 ackW5 5 (-5) resW5 (by decide) rfl rfl (by decide)
    (by decide) (by decide) (by decide) (by decide)

/-- GetOption of an option that SetOption stored. -/
theorem getOpt_some (l : List Nat) : getOpt (some l) = l := rfl

/-- Inversion of _valid_source_address: acceptance means the packet has a
source, its port is 67, and its IP is one of the transaction's servers. -/
theorem validSource_mem (tx : Transaction) (p : DhcpPacket)
    (h : validSourceAddress tx p = true) :
    ∃ ip port, p.source_address = some (ip, port) ∧ port = 67 ∧
      ip ∈ tx.server_ips := by
  unfold validSourceAddress at h
  cases hs : p.source_address with
  | none =>
    rw [hs] at h
    cases h
  | some a =>
    obtain ⟨ip, port⟩ := a
    rw [hs] at h
    dsimp only at h
    by_cases hp : port ≠ 67
    · rw [if_pos hp] at h
      cases h
    · rw [if_neg hp] at h
      by_cases hm : ip ∈ tx.server_ips
      · push_neg at hp
        exact ⟨ip, port, rfl, hp, hm⟩
      · rw [if_pos hm] at h
        cases h

/-- Claim C6, counterexample: handling the valid OFFER offerC6 (whose
server_identifier does not parse) moves the transaction txC6 into AR_REQUEST
while its server_ips list still holds both servers, so being in AR_REQUEST
does not imply a single-element server list. -/
theorem claim_C6_counterexample :
    (handleDhcpOffer txC6 offerC6).1.state = some ArState.request ∧
    (handleDhcpOffer txC6 offerC6).1.server_ips = [167772161, 167772162] := by
  constructor
  · decide
  · decide

/-- Claim C6, amended.  The OFFER transition into AR_REQUEST narrows
server_ips to exactly one element when the list is already a singleton or
when the offer's server_identifier option parses as a 4-byte address; when
the parse fails the list is kept unchanged (and may stay longer than one),
and a refresh request begins directly in AR_REQUEST with the realm's full
server list rather than a narrowed one. -/
theorem claim_C6 :
    (∀ (tx : Transaction) (p : DhcpPacket),
      tx.state = some ArState.discover →
      validSourceAddress tx p = true →
      (tx.server_ips.length = 1 ∨
        ((getOpt p.server_identifier).length = 4 ∧
         (getOpt p.server_identifier).all (fun b => b < 256))) →
      ((handleDhcpOffer tx p).1.state = some ArState.request ∧
       (handleDhcpOffer tx p).1.server_ips.length = 1)) ∧
    (∀ (xid local_ip : Nat) (ci : List Nat) (server_ips : List Nat)
       (ta : Option Nat) (mr it : Nat) (lt : Option Nat) (st cip : Nat),
      (refreshRequestInit xid local_ip ci server_ips ta mr it lt st cip).1.state
          = some ArState.request ∧
      (refreshRequestInit xid local_ip ci server_ips ta mr it lt st cip).1.server_ips
          = server_ips) := by
  constructor
  · intro tx p hst hsrc hnarrow
    unfold handleDhcpOffer
    rw [hst]
    simp only [ne_eq, not_true_eq_false, if_false, hsrc, Bool.not_true,
      ite_false, ite_true, if_neg, not_false_eq_true]
    unfold retrieveServerIp generateRequestInitial generateBasePacket
    dsimp only
    simp only [getOpt_some]
    by_cases hlen : 1 < tx.server_ips.length
    · have hparse : (getOpt p.server_identifier).length = 4 ∧
          (getOpt p.server_identifier).all (fun b => b < 256) := by
        cases hnarrow with
        | inl h1 => omega
        | inr h => exact h
      rw [if_pos hlen]
      unfold ipv4FromBytes
      rw [if_pos hparse]
      unfold sendPacket sendToServer
      exact ⟨rfl, rfl⟩
    · obtain ⟨ip, port, hsa, hp67, hmem⟩ := validSource_mem tx p hsrc
      have hge : 1 ≤ tx.server_ips.length :=
        List.length_pos.mpr (List.ne_nil_of_mem hmem)
      rw [if_neg hlen]
      unfold sendPacket sendToServer
      refine ⟨rfl, ?_⟩
      dsimp only
      omega
  · intro xid local_ip ci server_ips ta mr it lt st cip
    unfold refreshRequestInit sendPacket sendToServer
    exact ⟨rfl, rfl⟩

/-- Witness for claim C6: a singleton server list stays a singleton through
the OFFER transition of txE2's initial-request twin, and a refresh request
keeps the two-server list it was configured with. -/
theorem claim_C6_witness :
    ((handleDhcpOffer { txC6 with server_ips := [167772161] } offerC6).1.state
        = some ArState.request ∧
     (handleDhcpOffer { txC6 with server_ips := [167772161] } offerC6).1.server_ips.length
        = 1) ∧
    ((refreshRequestInit 9 2130772483 [97] [167772161, 167772162] none 3 4 none 0
        167837955).1.state = some ArState.request ∧
     (refreshRequestInit 9 2130772483 [97] [167772161, 167772162] none 3 4 none 0
        167837955).1.server_ips = [167772161, 167772162]) :=
  ⟨claim_C6.1 { txC6 with server_ips := [167772161] } offerC6 (by decide)
      (by decide) (Or.inl (by decide)),
   claim_C6.2 9 2130772483 [97] [167772161, 167772162] none 3 4 none 0 167837955⟩

/-- Deleting a key removes it no matter what was stored under it. -/
theorem eraseXid_updateXid (m : ReqMap) (x : Nat) (t : Transaction) :
    eraseXid (updateXid m x t) x = eraseXid m x := by
  unfold eraseXid updateXid
  induction m with
  | nil => rfl
  | cons e m ih =>
    simp only [ne_eq, decide_not] at ih
    simp only [List.map_cons, List.filter_cons]
    by_cases he : e.1 = x <;> simp [he, ih]

/-- Claim C3: starting from any transaction with max_retries 3 and initial
timeout 4 that sends a packet p and never hears back, the initial send plus
the first three timer firings each transmit the identical packet p to every
address of server_ips (4 rounds in total), arming the pre-jitter timeouts 4,
8, 16 and 32 seconds; the fourth firing (retries already equal to
max_retries) sends nothing, removes the transaction's xid from the
requestor's map and invokes the failure callback, which over the whole run
fires exactly once. -/
theorem claim_C3 (tx0 : Transaction) (p : OutPacket) (reqs : ReqMap)
    (hmax : tx0.max_retries = 3) (hinit : tx0.initial_timeout = 4) :
    (sendPacket tx0 p).2.sends = tx0.server_ips.map (fun ip => (p, ip)) ∧
    (sendPacket tx0 p).2.armed = [4] ∧
    (sendPacket tx0 p).2.failure = false ∧
    (timeoutTrace 4 (sendPacket tx0 p).1 reqs).2.2 =
      [{ sends := tx0.server_ips.map (fun ip => (p, ip)), armed := [8],
         success := none, failure := false },
       { sends := tx0.server_ips.map (fun ip => (p, ip)), armed := [16],
         success := none, failure := false },
       { sends := tx0.server_ips.map (fun ip => (p, ip)), armed := [32],
         success := none, failure := false },
       { sends := [], armed := [], success := none, failure := true }] ∧
    (timeoutTrace 4 (sendPacket tx0 p).1 reqs).2.1 = eraseXid reqs tx0.xid ∧
    (((sendPacket tx0 p).2 :: (timeoutTrace 4 (sendPacket tx0 p).1 reqs).2.2).countP
        (fun e => e.failure)) = 1 := by
  refine ⟨?_, ?_, ?_, ?_, ?_, ?_⟩ <;>
    simp [sendPacket, sendToServer, resendPacket, timeoutTrace, handleTimeout,
      hmax, hinit, noEffects, eraseXid_updateXid, List.countP, List.countP.go]

/-- Witness for claim C3 at a concrete two-server transaction. -/
theorem claim_C3_witness :
    (sendPacket txC6 (generateDiscover txC6)).2.armed = [4] ∧
    (timeoutTrace 4 (sendPacket txC6 (generateDiscover txC6)).1
        [(9, (sendPacket txC6 (generateDiscover txC6)).1)]).2.1 =
      eraseXid [(9, (sendPacket txC6 (generateDiscover txC6)).1)] txC6.xid ∧
    (((sendPacket txC6 (generateDiscover txC6)).2 ::
        (timeoutTrace 4 (sendPacket txC6 (generateDiscover txC6)).1
          [(9, (sendPacket txC6 (generateDiscover txC6)).1)]).2.2).countP
        (fun e => e.failure)) = 1 := by
  have h := claim_C3 txC6 (generateDiscover txC6)
    [(9, (sendPacket txC6 (generateDiscover txC6)).1)] (by decide) (by decide)
  exact ⟨h.2.1, h.2.2.2.2.1, h.2.2.2.2.2⟩

/-- Storing under a key that is absent changes nothing. -/
theorem updateXid_not_mem (m : ReqMap) (x : Nat) (t : Transaction)
    (h : ¬ x ∈ m.map Prod.fst) : updateXid m x t = m := by
  induction m with
  | nil => rfl
  | cons e m ih =>
    simp only [List.map_cons, List.mem_cons, not_or] at h
    unfold updateXid at ih ⊢
    simp only [List.map_cons]
    rw [if_neg (fun hh => h.1 hh.symm), ih h.2]

/-- Unfolding updateXid one entry at a time. -/
theorem updateXid_cons (e : Nat × Transaction) (m : ReqMap) (x : Nat)
    (t : Transaction) :
    updateXid (e :: m) x t = (if e.1 = x then (x, t) else e) :: updateXid m x t := by
  unfold updateXid
  rw [List.map_cons]

/-- Unfolding lookupXid one entry at a time. -/
theorem lookupXid_cons (e : Nat × Transaction) (m : ReqMap) (x : Nat) :
    lookupXid (e :: m) x = if e.1 = x then some e.2 else lookupXid m x := by
  unfold lookupXid
  rw [List.find?_cons]
  by_cases he : e.1 = x <;> simp [he]

/-- Storing back the value already found under a key leaves a
unique-keyed dictionary unchanged. -/
theorem updateXid_self (m : ReqMap) (x : Nat) (t : Transaction)
    (hnd : (m.map Prod.fst).Nodup) (hl : lookupXid m x = some t) :
    updateXid m x t = m := by
  induction m with
  | nil => cases hl
  | cons e m ih =>
    rw [List.map_cons, List.nodup_cons] at hnd
    rw [lookupXid_cons] at hl
    rw [updateXid_cons]
    by_cases he : e.1 = x
    · rw [if_pos he] at hl ⊢
      have ht : e.2 = t := Option.some.inj hl
      have hx : (x, t) = e := by
        cases e
        simp only [Prod.mk.injEq]
        exact ⟨he.symm, ht.symm⟩
      rw [hx, updateXid_not_mem m x t (he ▸ hnd.1)]
    · rw [if_neg he] at hl ⊢
      rw [ih hnd.2 hl]

/-- handle_dhcp_offer drops a packet from an invalid source (and likewise a
packet in the wrong state) without touching the transaction. -/
theorem handleDhcpOffer_drop (tx : Transaction) (p : DhcpPacket)
    (h : validSourceAddress tx p = false) :
    handleDhcpOffer tx p = (tx, noEffects) := by
  unfold handleDhcpOffer
  by_cases hst : tx.state ≠ some ArState.discover
  · rw [if_pos hst]
  · rw [if_neg hst, if_pos (by simp [h])]

/-- handle_dhcp_ack drops a packet from an invalid source. -/
theorem handleDhcpAck_drop (tx : Transaction) (p : DhcpPacket) (jr jb : Int)
    (h : validSourceAddress tx p = false) :
    handleDhcpAck tx p jr jb = (tx, false, noEffects, false) := by
  unfold handleDhcpAck
  by_cases hst : tx.state ≠ some ArState.request
  · rw [if_pos hst]
  · rw [if_neg hst, if_pos (by simp [h])]

/-- handle_dhcp_nack drops a packet from an invalid source. -/
theorem handleDhcpNack_drop (tx : Transaction) (p : DhcpPacket)
    (h : validSourceAddress tx p = false) :
    handleDhcpNack tx p = (tx, false, noEffects) := by
  unfold handleDhcpNack
  by_cases hst : tx.state ≠ some ArState.request
  · rw [if_pos hst]
  · rw [if_neg hst, if_pos (by simp [h])]

/-- Claim C4: an inbound datagram that fails any of the ingress conditions -
not a valid DHCP packet with a message type, message type outside OFFER (2)
ACK (5) NACK (6), unknown xid, source port other than 67, or source IP
outside the matched transaction's server list - is dropped: handle_socket
leaves the requestor's xid map (with its dict-unique keys) unchanged, and no
send, timer, success or failure effect is produced; in particular a handler
takes effect only on packets passing all five conditions. -/
theorem claim_C4 (jr jb : Int) (d : Dgram) (reqs : ReqMap)
    (hnd : (reqs.map Prod.fst).Nodup)
    (hacc : ∀ p, d = Dgram.decoded p → packetAccepted p reqs = false) :
    handleSocket jr jb d reqs = (reqs, noEffects) := by
  have hbody : handleSocketBody jr jb d reqs = Except.ok (reqs, noEffects) ∨
      handleSocketBody jr jb d reqs = Except.error (reqs, noEffects) := by
    cases d with
    | empty => left; rfl
    | undecodable => right; rfl
    | decoded p =>
      have hp := hacc p rfl
      unfold handleSocketBody
      dsimp only
      by_cases h1 : ¬ p.is_dhcp_packet ∨ p.dhcp_message_type = none
      · left
        rw [if_pos h1]
      · rw [if_neg h1]
        rw [not_or, not_not] at h1
        have hbsome : p.dhcp_message_type.isSome = true :=
          Option.isSome_iff_ne_none.mpr h1.2
        cases hmtv : getOpt p.dhcp_message_type with
        | nil => right; rfl
        | cons t rest =>
          dsimp only
          by_cases ht : ¬ (t = 2 ∨ t = 5 ∨ t = 6)
          · left
            rw [if_pos ht]
          · rw [if_neg ht]
            rw [not_not] at ht
            cases hlk : lookupXid reqs (bytesToNat p.xid) with
            | none => left; rfl
            | some tx =>
              dsimp only
              have hsrc : validSourceAddress tx p = false := by
                unfold packetAccepted at hp
                rw [hmtv, hlk] at hp
                simp [h1.1, hbsome, ht] at hp
                exact hp
              by_cases ht2 : t = 2
              · left
                rw [if_pos ht2, handleDhcpOffer_drop tx p hsrc]
                dsimp only
                rw [updateXid_self reqs (bytesToNat p.xid) tx hnd hlk]
              · rw [if_neg ht2]
                by_cases ht5 : t = 5
                · left
                  rw [if_pos ht5, handleDhcpAck_drop tx p jr jb hsrc]
                  simp only [Bool.false_eq_true, if_false, ite_false]
                  rw [updateXid_self reqs (bytesToNat p.xid) tx hnd hlk]
                · left
                  rw [if_neg ht5, handleDhcpNack_drop tx p hsrc]
                  simp only [Bool.false_eq_true, if_false, ite_false]
                  rw [updateXid_self reqs (bytesToNat p.xid) tx hnd hlk]
  unfold handleSocket
  rcases hbody with h | h <;> rw [h]

/-- Witness for claim C4: the unknown-xid packet leaves the one-entry map
untouched and produces no effect. -/
theorem claim_C4_witness :
    handleSocket 0 0 (Dgram.decoded packetC4) [(9, txC6)] =
      ([(9, txC6)], noEffects) := by
  apply claim_C4
  · decide
  · intro p hp
    injection hp with h
    rw [← h]
    decide

/-- The FAIL effects differ from every OK effects record. -/
theorem fail_ne_requestOk : failEffects ≠ requestOkEffects := by
  decide

/-- Case analysis of _handle_request_cmd: it answers exactly one FAIL (and
mutates nothing) or exactly one OK (retaining the descriptors and starting
the transaction), and the OK case happens precisely when all four parameters
are present, both file-descriptor indices parse and are in range, the
username parses, and realm and concentrator are known. -/
theorem handleRequestCmd_cases (parseU : String → Option String)
    (realms servers : List String) (params : CmdParams) (nfiles : Nat) :
    (handleRequestCmd parseU realms servers params nfiles = failEffects ∨
     handleRequestCmd parseU realms servers params nfiles = requestOkEffects) ∧
    (handleRequestCmd parseU realms servers params nfiles = requestOkEffects ↔
      ∃ fu ri ci dn i j realm,
        params = CmdParams.mk (some fu) (some ri) (some ci) (some dn) ∧
        pyInt ri = some i ∧ idxOk nfiles i = true ∧
        pyInt ci = some j ∧ idxOk nfiles j = true ∧
        parseU fu = some realm ∧ realm ∈ realms ∧ dn ∈ servers) := by
  obtain ⟨fu, ri, ci, dn⟩ := params
  unfold handleRequestCmd
  cases fu with
  | none =>
    refine ⟨Or.inl rfl, fun h => absurd h fail_ne_requestOk, ?_⟩
    rintro ⟨fu', ri', ci', dn', i, j, realm, hp, -⟩
    simp at hp
  | some fuv =>
  cases ri with
  | none =>
    refine ⟨Or.inl rfl, fun h => absurd h fail_ne_requestOk, ?_⟩
    rintro ⟨fu', ri', ci', dn', i, j, realm, hp, -⟩
    simp at hp
  | some riv =>
  cases ci with
  | none =>
    refine ⟨Or.inl rfl, fun h => absurd h fail_ne_requestOk, ?_⟩
    rintro ⟨fu', ri', ci', dn', i, j, realm, hp, -⟩
    simp at hp
  | some civ =>
  cases dn with
  | none =>
    refine ⟨Or.inl rfl, fun h => absurd h fail_ne_requestOk, ?_⟩
    rintro ⟨fu', ri', ci', dn', i, j, realm, hp, -⟩
    simp at hp
  | some dnv =>
  dsimp only
  cases hpi : pyInt riv with
  | none =>
    refine ⟨Or.inl rfl, fun h => absurd h fail_ne_requestOk, ?_⟩
    rintro ⟨fu', ri', ci', dn', i, j, realm, hp, hpi', -⟩
    simp only [CmdParams.mk.injEq, Option.some.injEq] at hp
    rw [hp.2.1] at hpi
    rw [hpi] at hpi'
    cases hpi'
  | some i =>
  dsimp only
  by_cases hix : idxOk nfiles i = true
  · rw [if_neg (show ¬ ¬ idxOk nfiles i = true from by simp [hix])]
    cases hpj : pyInt civ with
    | none =>
      refine ⟨Or.inl rfl, fun h => absurd h fail_ne_requestOk, ?_⟩
      rintro ⟨fu', ri', ci', dn', i', j, realm, hp, hpi', hix', hpj', -⟩
      simp only [CmdParams.mk.injEq, Option.some.injEq] at hp
      rw [hp.2.2.1] at hpj
      rw [hpj] at hpj'
      cases hpj'
    | some j =>
    dsimp only
    by_cases hjx : idxOk nfiles j = true
    · rw [if_neg (show ¬ ¬ idxOk nfiles j = true from by simp [hjx])]
      cases hpu : parseU fuv with
      | none =>
        refine ⟨Or.inl rfl, fun h => absurd h fail_ne_requestOk, ?_⟩
        rintro ⟨fu', ri', ci', dn', i', j', realm, hp, hpi', hix', hpj', hjx', hpu', -⟩
        simp only [CmdParams.mk.injEq, Option.some.injEq] at hp
        rw [hp.1] at hpu
        rw [hpu] at hpu'
        cases hpu'
      | some realm =>
      dsimp only
      by_cases hrm : realm ∈ realms
      · rw [if_neg (show ¬ realm ∉ realms from by simp [hrm])]
        by_cases hdm : dnv ∈ servers
        · rw [if_neg (show ¬ dnv ∉ servers from by simp [hdm])]
          refine ⟨Or.inr rfl, fun h => ?_, fun h => rfl⟩
          exact ⟨fuv, riv, civ, dnv, i, j, realm, rfl, hpi, hix, hpj, hjx,
            hpu, hrm, hdm⟩
        · rw [if_pos (show dnv ∉ servers from hdm)]
          refine ⟨Or.inl rfl, fun h => absurd h fail_ne_requestOk, ?_⟩
          rintro ⟨fu', ri', ci', dn', i', j', realm', hp, hpi', hix', hpj', hjx',
            hpu', hrm', hdm'⟩
          simp only [CmdParams.mk.injEq, Option.some.injEq] at hp
          rw [← hp.2.2.2] at hdm'
          exact absurd hdm' hdm
      · rw [if_pos (show realm ∉ realms from hrm)]
        refine ⟨Or.inl rfl, fun h => absurd h fail_ne_requestOk, ?_⟩
        rintro ⟨fu', ri', ci', dn', i', j', realm', hp, hpi', hix', hpj', hjx',
          hpu', hrm', hdm'⟩
        simp only [CmdParams.mk.injEq, Option.some.injEq] at hp
        rw [hp.1] at hpu
        rw [hpu] at hpu'
        rw [← Option.some.inj hpu'] at hrm'
        exact absurd hrm' hrm
    · rw [if_pos (show ¬ idxOk nfiles j = true from by simp [hjx])]
      refine ⟨Or.inl rfl, fun h => absurd h fail_ne_requestOk, ?_⟩
      rintro ⟨fu', ri', ci', dn', i', j', realm', hp, hpi', hix', hpj', hjx', -⟩
      simp only [CmdParams.mk.injEq, Option.some.injEq] at hp
      rw [hp.2.2.1] at hpj
      rw [hpj] at hpj'
      rw [← Option.some.inj hpj'] at hjx'
      exact absurd hjx' hjx
  · rw [if_pos (show ¬ idxOk nfiles i = true from by simp [hix])]
    refine ⟨Or.inl rfl, fun h => absurd h fail_ne_requestOk, ?_⟩
    rintro ⟨fu', ri', ci', dn', i', j', realm', hp, hpi', hix', -⟩
    simp only [CmdParams.mk.injEq, Option.some.injEq] at hp
    rw [hp.2.1] at hpi
    rw [hpi] at hpi'
    rw [← Option.some.inj hpi'] at hix'
    exact absurd hix' hix

/-- Claim C9: handle_socket never raises - its whole body runs inside
try/except Exception, so the socket-loop step always leaves the requestor's
handler registered, for every datagram including undecodable ones and ones
whose per-type handler raises.  The second and third conjuncts exhibit a
datagram on which the inner body really does raise (after handle_dhcp_ack
has already deregistered the transaction): the exception is caught, the
method returns normally with the partial state, and no success or failure
callback was invoked. -/
theorem claim_C9 :
    (∀ (jr jb : Int) (d : Dgram) (reqs : ReqMap),
      (socketLoopStep jr jb d reqs).2 = true) ∧
    handleSocketBody 0 0 (Dgram.decoded ackRaising) [(7, txE2)] =
      Except.error ([], noEffects) ∧
    handleSocket 0 0 (Dgram.decoded ackRaising) [(7, txE2)] = ([], noEffects) := by
  refine ⟨?_, ?_, ?_⟩
  · intro jr jb d reqs
    rfl
  · rfl
  · rfl

/-- Case analysis of _handle_disconnect_cmd: one FAIL with no state change,
or one OK together with the removal of the named client. -/
theorem handleDisconnectCmd_cases (servers : List String) (params : CmdParams) :
    handleDisconnectCmd servers params = failEffects ∨
    ∃ fu dn, params.full_username = some fu ∧ params.daemon_name = some dn ∧
      dn ∈ servers ∧
      handleDisconnectCmd servers params = disconnectOkEffects fu dn := by
  obtain ⟨fu, ri, ci, dn⟩ := params
  unfold handleDisconnectCmd
  cases fu with
  | none => left; rfl
  | some fuv =>
    cases dn with
    | none => left; rfl
    | some dnv =>
      dsimp only
      by_cases hdm : dnv ∈ servers
      · right
        exact ⟨fuv, dnv, rfl, rfl, hdm,
          by rw [if_neg (show ¬ dnv ∉ servers from by simp [hdm])]⟩
      · left
        rw [if_pos (show dnv ∉ servers from hdm)]

/-- Claim C7, counterexample: a message that is not valid JSON is logged and
ignored by CommandConnection._parse_command - the endpoint sends no reply at
all, rather than the one FAIL the claim requires. -/
theorem claim_C7_counterexample :
    parseCommand (fun _ => none) [] [] CmdMsg.undecodable 0 = noCmdEffects ∧
    noCmdEffects.replies = [] := by
  constructor
  · rfl
  · rfl

/-- Claim C7, amended.  Undecodable JSON gets no reply and mutates nothing;
a decoded object without a cmd key raises KeyError out of the handler, which
makes the socket loop drop the whole command connection (again without a
FAIL).  Every other malformed message is answered with exactly one FAIL and
mutates no state: an unknown command name; a request command with a missing
parameter, an unparseable or out-of-range file-descriptor index, an
unparseable username, an unknown realm or an unknown concentrator (the OK
outcome happens precisely when every one of those checks passes); and a
disconnect command with a missing parameter or unknown concentrator. -/
theorem claim_C7 :
    (∀ (parseU : String → Option String) (realms servers : List String)
       (nfiles : Nat),
      parseCommand parseU realms servers CmdMsg.undecodable nfiles = noCmdEffects) ∧
    (∀ (parseU : String → Option String) (realms servers : List String)
       (params : CmdParams) (nfiles : Nat),
      parseCommand parseU realms servers (CmdMsg.noCmdKey params) nfiles =
        { noCmdEffects with raised := true }) ∧
    (∀ (parseU : String → Option String) (realms servers : List String)
       (name : String) (params : CmdParams) (nfiles : Nat),
      name ≠ "request" → name ≠ "disconnect" →
      parseCommand parseU realms servers (CmdMsg.cmd name params) nfiles =
        failEffects) ∧
    (∀ (parseU : String → Option String) (realms servers : List String)
       (params : CmdParams) (nfiles : Nat),
      (handleRequestCmd parseU realms servers params nfiles = failEffects ∨
       handleRequestCmd parseU realms servers params nfiles = requestOkEffects) ∧
      (handleRequestCmd parseU realms servers params nfiles = requestOkEffects ↔
        ∃ fu ri ci dn i j realm,
          params = CmdParams.mk (some fu) (some ri) (some ci) (some dn) ∧
          pyInt ri = some i ∧ idxOk nfiles i = true ∧
          pyInt ci = some j ∧ idxOk nfiles j = true ∧
          parseU fu = some realm ∧ realm ∈ realms ∧ dn ∈ servers)) ∧
    (∀ (servers : List String) (params : CmdParams),
      handleDisconnectCmd servers params = failEffects ∨
      ∃ fu dn, params.full_username = some fu ∧ params.daemon_name = some dn ∧
        dn ∈ servers ∧
        handleDisconnectCmd servers params = disconnectOkEffects fu dn) := by
  refine ⟨fun _ _ _ _ => rfl, fun _ _ _ _ _ => rfl, ?_, ?_, ?_⟩
  · intro parseU realms servers name params nfiles h1 h2
    unfold parseCommand handleCmd
    dsimp only
    rw [if_neg h1, if_neg h2]
  · intro parseU realms servers params nfiles
    exact handleRequestCmd_cases parseU realms servers params nfiles
  · intro servers params
    exact handleDisconnectCmd_cases servers params

/-- The model SHA-256 agrees with the FIPS 180-4 test vector for abc. -/
theorem sha256_abc :
    (hexDigestChars (sha256 [97, 98, 99])).asString =
      "ba7816bf8f01cfea414140de5dae2223b00361a396177a9cb410ff61f20015ad" := by
  decide

/-- One compression round preserves the state length. -/
theorem shaCompressWord_length (st : List Nat) (k w : Nat) :
    (shaCompressWord st k w).length = st.length := by
  unfold shaCompressWord
  split
  · rfl
  · rfl

/-- The whole 64-round fold preserves the state length. -/
theorem shaFoldWord_length (l : List (Nat × Nat)) (st : List Nat) :
    (l.foldl (fun s kw => shaCompressWord s kw.1 kw.2) st).length = st.length := by
  induction l generalizing st with
  | nil => rfl
  | cons kw l ih => rw [List.foldl_cons, ih, shaCompressWord_length]

/-- Compressing a block preserves the eight-word hash length. -/
theorem shaCompressBlock_length (hs block : List Nat) (h : hs.length = 8) :
    (shaCompressBlock hs block).length = 8 := by
  unfold shaCompressBlock
  rw [List.length_zipWith, shaFoldWord_length, h]
  simp

/-- Folding any number of blocks preserves the eight-word hash length. -/
theorem shaFoldBlocks_length (blocks : List (List Nat)) (hs : List Nat)
    (h : hs.length = 8) : (blocks.foldl shaCompressBlock hs).length = 8 := by
  induction blocks generalizing hs with
  | nil => exact h
  | cons b blocks ih =>
    rw [List.foldl_cons]
    exact ih _ (shaCompressBlock_length hs b h)

/-- Flattened 4-byte renderings of n words give 4n bytes. -/
theorem flatten4_length (hs : List Nat) :
    ((hs.map natToBytes4).flatten).length = 4 * hs.length := by
  induction hs with
  | nil => rfl
  | cons h hs ih =>
    simp only [List.map_cons, List.flatten_cons, List.length_append, ih,
      List.length_cons]
    simp [natToBytes4]
    omega

/-- Every byte of the flattened 4-byte renderings is below 256. -/
theorem flatten4_lt (hs : List Nat) :
    ∀ b ∈ (hs.map natToBytes4).flatten, b < 256 := by
  induction hs with
  | nil => intro b hb; cases hb
  | cons h hs ih =>
    intro b hb
    simp only [List.map_cons, List.flatten_cons, List.mem_append] at hb
    cases hb with
    | inl h1 =>
      simp only [natToBytes4, List.mem_cons, List.not_mem_nil, or_false] at h1
      rcases h1 with rfl | rfl | rfl | rfl <;> exact Nat.mod_lt _ (by omega)
    | inr h2 => exact ih b h2

/-- The digest has 32 bytes. -/
theorem sha256_length (msg : List Nat) : (sha256 msg).length = 32 := by
  unfold sha256
  rw [flatten4_length, shaFoldBlocks_length _ _ (by rfl)]

/-- Every digest byte is below 256. -/
theorem sha256_bytes_lt (msg : List Nat) : ∀ b ∈ sha256 msg, b < 256 := by
  unfold sha256
  exact flatten4_lt _

/-- Two hexdigest characters per byte. -/
theorem hexDigest_length (bs : List Nat) :
    (hexDigestChars bs).length = 2 * bs.length := by
  induction bs with
  | nil => rfl
  | cons b bs ih =>
    simp only [hexDigestChars, List.map_cons, List.flatten_cons,
      List.length_append] at ih ⊢
    simp [byteHexChars, ih]
    omega

/-- Taking 2k hexdigest characters is the hexdigest of the first k bytes. -/
theorem hexDigest_take (bs : List Nat) (k : Nat) :
    (hexDigestChars bs).take (2 * k) = hexDigestChars (bs.take k) := by
  induction bs generalizing k with
  | nil => simp [hexDigestChars]
  | cons b bs ih =>
    cases k with
    | zero => simp [hexDigestChars]
    | succ k =>
      have h2 : 2 * (k + 1) = 2 * k + 1 + 1 := by ring
      simp only [hexDigestChars, List.map_cons, List.flatten_cons, byteHexChars,
        List.cons_append, List.nil_append, h2, List.take_succ_cons]
      rw [show (bs.map byteHexChars).flatten = hexDigestChars bs from rfl,
        ih k]
      rfl

/-- The value of one lower-case hex digit round-trips. -/
theorem hexVal_hexChar (n : Nat) (h : n < 16) : hexVal (hexChar n) = n := by
  interval_cases n <;> decide

/-- Positional accumulation of the hex fold. -/
theorem parseHexGo (cs : List Char) (a : Nat) :
    List.foldl (fun a c => a * 16 + hexVal c) a cs =
      a * 16 ^ cs.length + List.foldl (fun a c => a * 16 + hexVal c) 0 cs := by
  induction cs generalizing a with
  | nil => simp
  | cons c cs ih =>
    rw [List.foldl_cons, List.foldl_cons, ih (a * 16 + hexVal c),
      ih (0 * 16 + hexVal c), List.length_cons]
    ring

/-- The two hex characters of a byte parse back to the byte. -/
theorem byteHex_parse (b : Nat) (h : b < 256) :
    parseHexChars (byteHexChars b) = b := by
  unfold parseHexChars byteHexChars
  rw [List.foldl_cons, List.foldl_cons, List.foldl_nil,
    hexVal_hexChar (b / 16) (by omega), hexVal_hexChar (b % 16) (by omega)]
  omega

/-- int(hexdigest, 16) of a byte list is its big-endian value. -/
theorem parseHex_hexDigest (bs : List Nat) (h : ∀ b ∈ bs, b < 256) :
    parseHexChars (hexDigestChars bs) = bytesToNat bs := by
  induction bs with
  | nil => rfl
  | cons b bs ih =>
    have hb := h b (List.mem_cons_self b bs)
    have hd : hexDigestChars (b :: bs) = byteHexChars b ++ hexDigestChars bs := by
      simp [hexDigestChars]
    rw [hd]
    unfold parseHexChars
    rw [List.foldl_append, show List.foldl (fun a c => a * 16 + hexVal c) 0
        (byteHexChars b) = b from byteHex_parse b hb, parseHexGo,
      hexDigest_length,
      show List.foldl (fun a c => a * 16 + hexVal c) 0 (hexDigestChars bs) =
        bytesToNat bs from ih (fun x hx => h x (List.mem_cons_of_mem b hx))]
    show b * 16 ^ (2 * bs.length) + bytesToNat bs = bytesToNat (b :: bs)
    rw [show (16 : Nat) ^ (2 * bs.length) = 256 ^ bs.length from by
      rw [pow_mul]
      norm_num]
    rfl

/-- Claim C8: the IPv6 address written by the success handler is a pure
function of the four inputs (full_username, date, shared secret, prefix) -
odrdIpv6Address takes exactly those and nothing else, so equal inputs give
equal addresses - and it equals the prefix network address plus the first 64
bits of SHA-256(full_username || date || secret) read as a big-endian
integer; the gateway is the configured default_gateway_ipv6 when set and
otherwise the network address plus one. -/
theorem claim_C8 :
    (∀ (username date secret : List Nat) (network : Nat),
      odrdIpv6Address username date secret network =
        specIpv6Address username date secret network) ∧
    (∀ (network : Nat) (s : String),
      odrdIpv6Gateway network (some s) = Ipv6Gateway.configured s) ∧
    (∀ network : Nat,
      odrdIpv6Gateway network none = Ipv6Gateway.derived (network + 1)) := by
  refine ⟨?_, fun _ _ => rfl, fun _ => rfl⟩
  intro u d s network
  unfold odrdIpv6Address specIpv6Address
  congr 1
  rw [show (16 : Nat) = 2 * 8 from rfl, hexDigest_take]
  exact parseHex_hexDigest _
    (fun b hb => sha256_bytes_lt (u ++ d ++ s) b (List.mem_of_mem_take hb))

/-- Claim C10: every configuration fragment written for a successful DHCP
request opens with the ifconfig-push line immediately followed by the line
push ip-win32 dynamic; and a push route-gateway line appears in the fragment
exactly when the realm configures default_gateway_ipv4 or the DHCP result
carries a gateway - when neither exists no route-gateway line is written at
all. -/
theorem claim_C10 (realm : RealmData) (username date secret : List Nat)
    (res : AckResult) (lines : List ConfigLine)
    (h : successFragment realm username date secret res =
      SuccessOutcome.wrote lines) :
    (∃ ip mask, res.ip_address = some ip ∧ res.subnet_mask = some mask ∧
      lines.take 2 = [ConfigLine.ifconfigPush ip mask,
                      ConfigLine.ipWin32Dynamic]) ∧
    ((∃ g, ConfigLine.routeGateway g ∈ lines) ↔
      (realm.default_gateway_ipv4.isSome ∨ res.gateway.isSome)) := by
  unfold successFragment at h
  cases hip : res.ip_address with
  | none =>
    rw [hip] at h
    cases h
  | some ip =>
    cases hmk : res.subnet_mask with
    | none =>
      rw [hip, hmk] at h
      cases h
    | some mask =>
      rw [hip, hmk] at h
      dsimp only at h
      have hl := (SuccessOutcome.wrote.inj h).symm
      subst hl
      refine ⟨⟨ip, mask, rfl, rfl, rfl⟩, ?_⟩
      obtain ⟨vid, pdr, dg4, s6, dg6, sr4, sr6⟩ := realm
      cases hg : res.gateway <;> cases dg4 <;> cases s6 <;> cases vid <;>
        cases dg6 <;> cases pdr <;>
          simp [List.mem_append, List.mem_map]

/-- Witness for claim C10 on the concrete fragment linesW. -/
theorem claim_C10_witness :
    (∃ ip mask, resE2.ip_address = some ip ∧ resE2.subnet_mask = some mask ∧
      linesW.take 2 = [ConfigLine.ifconfigPush ip mask,
                       ConfigLine.ipWin32Dynamic]) ∧
    ((∃ g, ConfigLine.routeGateway g ∈ linesW) ↔
      (realmW.default_gateway_ipv4.isSome ∨ resE2.gateway.isSome)) :=
  claim_C10 realmW [117] [100] [115] resE2 linesW (by decide)

/-- Witness for claim C7: an unknown command, a request with an out-of-range
descriptor index, and a disconnect naming an unknown concentrator each get
exactly one FAIL with no state change. -/
theorem claim_C7_witness :
    parseCommand (fun _ => some "r") ["r"] ["vpn1"]
        (CmdMsg.cmd "bogus" (CmdParams.mk none none none none)) 2 =
      failEffects ∧
    (handleRequestCmd (fun _ => some "r") ["r"] ["vpn1"]
        (CmdParams.mk (some "u@r") (some "0") (some "7") (some "vpn1")) 2 =
       failEffects ∨
     handleRequestCmd (fun _ => some "r") ["r"] ["vpn1"]
        (CmdParams.mk (some "u@r") (some "0") (some "7") (some "vpn1")) 2 =
       requestOkEffects) ∧
    (handleDisconnectCmd ["vpn1"]
        (CmdParams.mk (some "u@r") none none (some "vpn2")) = failEffects ∨
     ∃ fu dn,
       (CmdParams.mk (some "u@r") none none (some "vpn2")).full_username = some fu ∧
       (CmdParams.mk (some "u@r") none none (some "vpn2")).daemon_name = some dn ∧
       dn ∈ ["vpn1"] ∧
       handleDisconnectCmd ["vpn1"]
          (CmdParams.mk (some "u@r") none none (some "vpn2")) =
         disconnectOkEffects fu dn) :=
  ⟨claim_C7.2.2.1 (fun _ => some "r") ["r"] ["vpn1"] "bogus"
      (CmdParams.mk none none none none) 2 (by decide) (by decide),
   (claim_C7.2.2.2.1 (fun _ => some "r") ["r"] ["vpn1"]
      (CmdParams.mk (some "u@r") (some "0") (some "7") (some "vpn1")) 2).1,
   claim_C7.2.2.2.2 ["vpn1"] (CmdParams.mk (some "u@r") none none (some "vpn2"))⟩

end Odr

